import Mathlib

/-!
Verification development for the Arrvee audio-analysis pipeline.

The Rust source is shallowly embedded in Lean 4.  `f32` values are modeled as
exact rationals (`ℚ`); decimal literals such as `0.0001` or `1.2` denote the
exact rational written in the source text.  Machine-integer casts (`as u16`,
`as u8`, `as usize`) are modeled explicitly with floors and truncation.
Operations whose values are irrational (`f32::sqrt`, `f32::cos`, the external
FFT library call) are abstracted as function parameters; every theorem that
touches them either quantifies over the abstracted function or pins down only
the values the source guarantees (for example `sqrt 0 = 0`).
-/

namespace Arrvee

/-- Rust `f32::clamp(lo, hi)`: `min (max x lo) hi` (for `lo ≤ hi`). -/
def clampQ (x lo hi : ℚ) : ℚ := min (max x lo) hi

theorem clampQ_nonneg (x hi : ℚ) (hhi : 0 ≤ hi) : 0 ≤ clampQ x 0 hi := by
  unfold clampQ
  exact le_min (le_max_right x 0) hhi

theorem clampQ_le (x lo hi : ℚ) : clampQ x lo hi ≤ hi := by
  unfold clampQ
  exact min_le_right _ _

theorem clampQ_lower (x lo hi : ℚ) (h : lo ≤ hi) : lo ≤ clampQ x lo hi := by
  unfold clampQ
  exact le_min (le_max_right x lo) h

/-! ## Feature records (src/audio/mod.rs data shapes used by the normalizer) -/

/-- `RawAudioFeatures`: one analysis window in backend-native units. -/
structure RawAudioFeatures where
  sub_bass : ℚ
  bass : ℚ
  mid : ℚ
  treble : ℚ
  presence : ℚ
  spectral_centroid : ℚ
  spectral_rolloff : ℚ
  spectral_flux : ℚ
  zero_crossing_rate : ℚ
  onset_strength : ℚ
  beat_strength : ℚ
  estimated_bpm : ℚ
  volume : ℚ
  dynamic_range : ℚ
  pitch_confidence : ℚ
deriving DecidableEq, Repr

/-- `NormalizedAudioFeatures`: the record returned by `FeatureNormalizer::normalize`. -/
structure NormalizedAudioFeatures where
  sub_bass : ℚ
  bass : ℚ
  mid : ℚ
  treble : ℚ
  presence : ℚ
  spectral_centroid : ℚ
  spectral_rolloff : ℚ
  spectral_flux : ℚ
  zero_crossing_rate : ℚ
  onset_strength : ℚ
  beat_detected : Bool
  beat_strength : ℚ
  estimated_bpm : ℚ
  volume : ℚ
  dynamic_range : ℚ
  pitch_confidence : ℚ
deriving DecidableEq, Repr

/-! ## src/audio/feature_normalizer.rs -/

/-- `NormalizationParameters` (feature_normalizer.rs lines 19-45). -/
structure NormalizationParameters where
  sub_bass_max : ℚ
  bass_max : ℚ
  mid_max : ℚ
  treble_max : ℚ
  presence_max : ℚ
  spectral_centroid_max : ℚ
  spectral_rolloff_max : ℚ
  spectral_flux_max : ℚ
  zero_crossing_rate_max : ℚ
  onset_strength_max : ℚ
  beat_strength_max : ℚ
  bpm_min : ℚ
  bpm_max : ℚ
  volume_max : ℚ
  dynamic_range_max : ℚ
  pitch_confidence_max : ℚ
deriving DecidableEq, Repr

/-- `NormalizationParameters::default` (feature_normalizer.rs lines 47-77). -/
def NormalizationParameters.default : NormalizationParameters where
  sub_bass_max := 0.0001
  bass_max := 0.0005
  mid_max := 0.0002
  treble_max := 0.0001
  presence_max := 0.00005
  spectral_centroid_max := 8000.0
  spectral_rolloff_max := 12000.0
  spectral_flux_max := 0.0001
  zero_crossing_rate_max := 0.5
  onset_strength_max := 0.0002
  beat_strength_max := 0.0005
  bpm_min := 60.0
  bpm_max := 200.0
  volume_max := 0.0001
  dynamic_range_max := 0.0002
  pitch_confidence_max := 1.0

/-- `ObservedRanges` (feature_normalizer.rs lines 128-147). -/
structure ObservedRanges where
  sub_bass_max : ℚ
  bass_max : ℚ
  mid_max : ℚ
  treble_max : ℚ
  presence_max : ℚ
  spectral_centroid_max : ℚ
  spectral_rolloff_max : ℚ
  spectral_flux_max : ℚ
  zero_crossing_rate_max : ℚ
  onset_strength_max : ℚ
  beat_strength_max : ℚ
  volume_max : ℚ
  dynamic_range_max : ℚ
  pitch_confidence_max : ℚ
  sample_count : ℕ
deriving DecidableEq, Repr

/-- `ObservedRanges::default` (feature_normalizer.rs lines 149-169). -/
def ObservedRanges.default : ObservedRanges where
  sub_bass_max := 0.001
  bass_max := 0.001
  mid_max := 0.001
  treble_max := 0.001
  presence_max := 0.001
  spectral_centroid_max := 1.0
  spectral_rolloff_max := 1.0
  spectral_flux_max := 0.001
  zero_crossing_rate_max := 0.001
  onset_strength_max := 0.001
  beat_strength_max := 0.001
  volume_max := 0.001
  dynamic_range_max := 0.001
  pitch_confidence_max := 0.001
  sample_count := 0

/-- `FeatureNormalizer` (feature_normalizer.rs lines 118-124). -/
structure FeatureNormalizer where
  parameters : NormalizationParameters
  adaptive : Bool
  observed_ranges : Option ObservedRanges
deriving DecidableEq, Repr

namespace FeatureNormalizer

/-- `FeatureNormalizer::new` (lines 173-179). -/
def new : FeatureNormalizer where
  parameters := NormalizationParameters.default
  adaptive := false
  observed_ranges := none

/-- `FeatureNormalizer::new_adaptive` (lines 182-188). -/
def new_adaptive : FeatureNormalizer where
  parameters := NormalizationParameters.default
  adaptive := true
  observed_ranges := some ObservedRanges.default

/-- `FeatureNormalizer::with_parameters` (lines 191-197). -/
def with_parameters (parameters : NormalizationParameters) : FeatureNormalizer where
  parameters := parameters
  adaptive := false
  observed_ranges := none

/-- `FeatureNormalizer::normalize_value` (lines 272-274): `(value / max_value).clamp(0.0, 1.0)`. -/
def normalize_value (value max_value : ℚ) : ℚ :=
  clampQ (value / max_value) 0 1

/-- `FeatureNormalizer::effective_parameters` (lines 276-303). -/
def effective_parameters (n : FeatureNormalizer) : NormalizationParameters :=
  match n.observed_ranges with
  | some observed =>
    if observed.sample_count > 100 then
      { sub_bass_max := observed.sub_bass_max * 1.2
        bass_max := observed.bass_max * 1.2
        mid_max := observed.mid_max * 1.2
        treble_max := observed.treble_max * 1.2
        presence_max := observed.presence_max * 1.2
        spectral_centroid_max := observed.spectral_centroid_max * 1.1
        spectral_rolloff_max := observed.spectral_rolloff_max * 1.1
        spectral_flux_max := observed.spectral_flux_max * 1.2
        zero_crossing_rate_max := observed.zero_crossing_rate_max * 1.2
        onset_strength_max := observed.onset_strength_max * 1.2
        beat_strength_max := observed.beat_strength_max * 1.2
        volume_max := observed.volume_max * 1.2
        dynamic_range_max := observed.dynamic_range_max * 1.2
        pitch_confidence_max := observed.pitch_confidence_max * 1.1
        bpm_min := n.parameters.bpm_min
        bpm_max := n.parameters.bpm_max }
    else
      n.parameters
  | none => n.parameters

/-- `FeatureNormalizer::update_observed_ranges` (lines 305-323). -/
def update_observed_ranges (n : FeatureNormalizer) (raw : RawAudioFeatures) : FeatureNormalizer :=
  match n.observed_ranges with
  | some observed =>
    { n with observed_ranges := some (
      { sub_bass_max := max observed.sub_bass_max raw.sub_bass
        bass_max := max observed.bass_max raw.bass
        mid_max := max observed.mid_max raw.mid
        treble_max := max observed.treble_max raw.treble
        presence_max := max observed.presence_max raw.presence
        spectral_centroid_max := max observed.spectral_centroid_max raw.spectral_centroid
        spectral_rolloff_max := max observed.spectral_rolloff_max raw.spectral_rolloff
        spectral_flux_max := max observed.spectral_flux_max raw.spectral_flux
        zero_crossing_rate_max := max observed.zero_crossing_rate_max raw.zero_crossing_rate
        onset_strength_max := max observed.onset_strength_max raw.onset_strength
        beat_strength_max := max observed.beat_strength_max raw.beat_strength
        volume_max := max observed.volume_max raw.volume
        dynamic_range_max := max observed.dynamic_range_max raw.dynamic_range
        pitch_confidence_max := max observed.pitch_confidence_max raw.pitch_confidence
        sample_count := observed.sample_count + 1 } : ObservedRanges) }
  | none => n

/-- The state of the normalizer after the adaptive-update step at the top of
`normalize` (lines 214-217): ranges are updated only in adaptive mode. -/
def after_update (n : FeatureNormalizer) (raw : RawAudioFeatures) : FeatureNormalizer :=
  if n.adaptive then n.update_observed_ranges raw else n

/-- `FeatureNormalizer::normalize` (lines 200-248), returning the updated
normalizer state together with the output record. -/
def normalize (n : FeatureNormalizer) (raw : RawAudioFeatures) :
    FeatureNormalizer × NormalizedAudioFeatures :=
  let n1 := n.after_update raw
  let params := n1.effective_parameters
  (n1,
   { sub_bass := normalize_value raw.sub_bass params.sub_bass_max
     bass := normalize_value raw.bass params.bass_max
     mid := normalize_value raw.mid params.mid_max
     treble := normalize_value raw.treble params.treble_max
     presence := normalize_value raw.presence params.presence_max
     spectral_centroid := normalize_value raw.spectral_centroid params.spectral_centroid_max
     spectral_rolloff := normalize_value raw.spectral_rolloff params.spectral_rolloff_max
     spectral_flux := normalize_value raw.spectral_flux params.spectral_flux_max
     zero_crossing_rate := normalize_value raw.zero_crossing_rate params.zero_crossing_rate_max
     onset_strength := normalize_value raw.onset_strength params.onset_strength_max
     beat_detected := decide (raw.beat_strength > params.beat_strength_max * 0.3)
     beat_strength := normalize_value raw.beat_strength params.beat_strength_max
     estimated_bpm := clampQ raw.estimated_bpm params.bpm_min params.bpm_max
     volume := normalize_value raw.volume params.volume_max
     dynamic_range := normalize_value raw.dynamic_range params.dynamic_range_max
     pitch_confidence := normalize_value raw.pitch_confidence params.pitch_confidence_max })

/-- Iterate `normalize` over a list of raw records, threading the normalizer state. -/
def runNormalize : FeatureNormalizer → List RawAudioFeatures → List NormalizedAudioFeatures
  | _, [] => []
  | n, r :: rs =>
    let p := n.normalize r
    p.2 :: runNormalize p.1 rs

end FeatureNormalizer

/-! ## src/audio/arv_format.rs: PackedFrame quantization helpers -/

namespace PackedFrame

/-- `PackedFrame::pack_float` (arv_format.rs lines 56-58):
`(value.clamp(0.0, 1.0) * 65535.0) as u16`.  The Rust float-to-integer `as`
cast truncates toward zero (the value here is always in `[0, 65535]`). -/
def pack_float (value : ℚ) : ℕ :=
  (⌊clampQ value 0 1 * 65535⌋).toNat

/-- `PackedFrame::unpack_float` (lines 61-63): `value as f32 / 65535.0`. -/
def unpack_float (value : ℕ) : ℚ :=
  (value : ℚ) / 65535

/-- `PackedFrame::pack_beat_strength` (lines 66-68):
`(strength.clamp(0.0, 5.0) * 51.0) as u8`. -/
def pack_beat_strength (strength : ℚ) : ℕ :=
  (⌊clampQ strength 0 5 * 51⌋).toNat

/-- `PackedFrame::unpack_beat_strength` (lines 71-73): `value as f32 / 51.0`. -/
def unpack_beat_strength (value : ℕ) : ℚ :=
  (value : ℚ) / 51

end PackedFrame

/-! ## src/audio/beat_detector.rs -/

/-- The source's bounded-history push: `push_back` followed by a `pop_front`
when the length exceeds the capacity (beat_detector.rs lines 36-44, and the
same pattern for `volume_history` in fft.rs lines 150-153 and
`beat_intervals` in fft.rs lines 89-92). -/
def pushCap (hist : List ℚ) (x : ℚ) (cap : ℕ) : List ℚ :=
  let h1 := hist ++ [x]
  if h1.length > cap then h1.tail else h1

/-- `FrequencyBands` (src/audio/mod.rs). -/
structure FrequencyBands where
  sub_bass : ℚ
  bass : ℚ
  mid : ℚ
  treble : ℚ
  presence : ℚ
deriving DecidableEq, Repr

/-- `BeatDetector` (beat_detector.rs lines 5-13).  The `VecDeque` histories are
lists with `push_back` appending and `pop_front` dropping the head. -/
structure BeatDetector where
  sample_rate : ℚ
  bass_history : List ℚ
  kick_history : List ℚ
  last_beat_time : ℚ
  time_counter : ℚ
  min_beat_interval : ℚ
  history_size : ℕ
deriving DecidableEq, Repr

namespace BeatDetector

/-- `BeatDetector::new` (lines 16-28).  `(sample_rate * 0.5) as usize / 1024`:
the float-to-usize cast truncates (saturating at zero), then integer division. -/
def new (sample_rate : ℚ) : BeatDetector where
  sample_rate := sample_rate
  bass_history := []
  kick_history := []
  last_beat_time := 0
  time_counter := 0
  min_beat_interval := 0.3
  history_size := (⌊sample_rate * 0.5⌋).toNat / 1024

/-- `BeatDetector::calculate_variance` (lines 79-89). -/
def calculate_variance (data : List ℚ) (mean : ℚ) : ℚ :=
  if data.length < 2 then 0
  else ((data.map (fun x => (x - mean) ^ 2)).sum) / ((data.length - 1 : ℕ) : ℚ)

/-- `BeatDetector::detect_beat` (lines 30-77).  `f32::sqrt` is irrational-valued
and is abstracted as the parameter `sqrtFn`; the refractory property proved
below holds for every choice of `sqrtFn`. -/
def detect_beat (sqrtFn : ℚ → ℚ) (d : BeatDetector) (bands : FrequencyBands) :
    BeatDetector × (Bool × ℚ) :=
  let time_counter := d.time_counter + 1024 / d.sample_rate
  let bass_energy := bands.bass + bands.sub_bass
  let kick_energy := bands.bass * 1.5 + bands.sub_bass * 0.8
  let bass_history := pushCap d.bass_history bass_energy d.history_size
  let kick_history := pushCap d.kick_history kick_energy d.history_size
  if bass_history.length < 10 then
    ({ d with time_counter := time_counter,
              bass_history := bass_history, kick_history := kick_history },
     (false, 0))
  else
    let bass_avg := bass_history.sum / (bass_history.length : ℚ)
    let kick_avg := kick_history.sum / (kick_history.length : ℚ)
    let bass_variance := calculate_variance bass_history bass_avg
    let kick_variance := calculate_variance kick_history kick_avg
    let bass_threshold := bass_avg + sqrtFn bass_variance * 1.5
    let kick_threshold := kick_avg + sqrtFn kick_variance * 2.0
    let time_since_last_beat := time_counter - d.last_beat_time
    let can_beat := decide (time_since_last_beat > d.min_beat_interval)
    let bass_beat := decide (bass_energy > bass_threshold) && decide (bass_energy > 0.01)
    let kick_beat := decide (kick_energy > kick_threshold) && decide (kick_energy > 0.015)
    let beat_detected := can_beat && (bass_beat || kick_beat)
    let beat_strength :=
      if beat_detected then
        ((bass_energy / max bass_avg 0.001) + (kick_energy / max kick_avg 0.001)) / 2
      else 0
    let last_beat_time := if beat_detected then time_counter else d.last_beat_time
    ({ d with time_counter := time_counter,
              bass_history := bass_history, kick_history := kick_history,
              last_beat_time := last_beat_time },
     (beat_detected, min beat_strength 5))

/-- State transition of one `detect_beat` call. -/
def stepDetect (sqrtFn : ℚ → ℚ) (d : BeatDetector) (b : FrequencyBands) : BeatDetector :=
  (detect_beat sqrtFn d b).1

/-- State after processing a list of band inputs. -/
def stateAfter (sqrtFn : ℚ → ℚ) (d : BeatDetector) (inputs : List FrequencyBands) : BeatDetector :=
  inputs.foldl (stepDetect sqrtFn) d

/-- Outputs of a sequence of `detect_beat` calls, threading the state. -/
def runDetect (sqrtFn : ℚ → ℚ) : BeatDetector → List FrequencyBands → List (Bool × ℚ)
  | _, [] => []
  | d, b :: bs =>
    let p := detect_beat sqrtFn d b
    p.2 :: runDetect sqrtFn p.1 bs

end BeatDetector

/-! ## src/audio/prescan.rs: data model -/

/-- `AudioFrame` (src/audio/mod.rs lines 10-27). -/
structure AudioFrame where
  sample_rate : ℚ
  spectrum : List ℚ
  time_domain : List ℚ
  frequency_bands : FrequencyBands
  beat_detected : Bool
  beat_strength : ℚ
  volume : ℚ
  spectral_centroid : ℚ
  spectral_rolloff : ℚ
  zero_crossing_rate : ℚ
  spectral_flux : ℚ
  onset_strength : ℚ
  pitch_confidence : ℚ
  estimated_bpm : ℚ
  dynamic_range : ℚ
deriving DecidableEq, Repr

/-- `PrescanFrame` (prescan.rs lines 31-57). -/
structure PrescanFrame where
  timestamp : ℚ
  frequency_bands : FrequencyBands
  beat_detected : Bool
  beat_strength : ℚ
  estimated_bpm : ℚ
  spectral_centroid : ℚ
  spectral_rolloff : ℚ
  pitch_confidence : ℚ
  zero_crossing_rate : ℚ
  spectral_flux : ℚ
  onset_strength : ℚ
  dynamic_range : ℚ
  volume : ℚ
deriving DecidableEq, Repr

/-- `FileInfo` (prescan.rs lines 21-29). -/
structure FileInfo where
  filename : String
  duration_seconds : ℚ
  sample_rate : ℚ
  total_samples : ℕ
  frame_rate : ℚ
  chunk_size : ℕ
deriving DecidableEq, Repr

/-- `AnalysisStatistics` (prescan.rs lines 59-79). -/
structure AnalysisStatistics where
  peak_bass : ℚ
  peak_mid : ℚ
  peak_treble : ℚ
  peak_presence : ℚ
  peak_volume : ℚ
  peak_spectral_flux : ℚ
  peak_onset : ℚ
  total_beats : ℕ
  average_bpm : ℚ
  bpm_range : ℚ × ℚ
  dominant_frequency_range : String
  energy_profile : String
  complexity_score : ℚ
deriving DecidableEq, Repr

/-- `AnalysisStatistics::default` (prescan.rs lines 284-302). -/
def AnalysisStatistics.default : AnalysisStatistics where
  peak_bass := 0
  peak_mid := 0
  peak_treble := 0
  peak_presence := 0
  peak_volume := 0
  peak_spectral_flux := 0
  peak_onset := 0
  total_beats := 0
  average_bpm := 120.0
  bpm_range := (60.0, 180.0)
  dominant_frequency_range := "Unknown"
  energy_profile := "Unknown"
  complexity_score := 0.5

/-- `PrescanData` (prescan.rs lines 10-19). -/
structure PrescanData where
  file_info : FileInfo
  frames : List PrescanFrame
  statistics : AnalysisStatistics
deriving DecidableEq, Repr

/-- `impl From<&AudioFrame> for PrescanFrame` (prescan.rs lines 81-99). -/
def PrescanFrame.fromAudioFrame (frame : AudioFrame) : PrescanFrame where
  timestamp := 0
  frequency_bands := frame.frequency_bands
  beat_detected := frame.beat_detected
  beat_strength := frame.beat_strength
  estimated_bpm := frame.estimated_bpm
  spectral_centroid := frame.spectral_centroid
  spectral_rolloff := frame.spectral_rolloff
  pitch_confidence := frame.pitch_confidence
  zero_crossing_rate := frame.zero_crossing_rate
  spectral_flux := frame.spectral_flux
  onset_strength := frame.onset_strength
  dynamic_range := frame.dynamic_range
  volume := frame.volume

namespace PrescanProcessor

/-- `PrescanProcessor::update_statistics` (prescan.rs lines 227-245); returns the
updated statistics, beat counter and BPM-sample list. -/
def update_statistics (stats : AnalysisStatistics) (frame : AudioFrame)
    (beat_count : ℕ) (bpm_values : List ℚ) :
    AnalysisStatistics × ℕ × List ℚ :=
  let stats :=
    { stats with
      peak_bass := max stats.peak_bass frame.frequency_bands.bass
      peak_mid := max stats.peak_mid frame.frequency_bands.mid
      peak_treble := max stats.peak_treble frame.frequency_bands.treble
      peak_presence := max stats.peak_presence frame.frequency_bands.presence
      peak_volume := max stats.peak_volume frame.volume
      peak_spectral_flux := max stats.peak_spectral_flux frame.spectral_flux
      peak_onset := max stats.peak_onset frame.onset_strength }
  if frame.beat_detected then
    if frame.estimated_bpm > 60 ∧ frame.estimated_bpm < 200 then
      (stats, beat_count + 1, bpm_values ++ [frame.estimated_bpm])
    else
      (stats, beat_count + 1, bpm_values)
  else
    (stats, beat_count, bpm_values)

/-- `PrescanProcessor::classify_content` (prescan.rs lines 247-281).  Note the
averages are over the `bass`, `mid` and `treble` fields alone; `sub_bass` and
`presence` do not enter the comparison. -/
def classify_content (stats : AnalysisStatistics) (frames : List PrescanFrame) :
    AnalysisStatistics :=
  let n : ℚ := (frames.length : ℚ)
  let avg_bass := (frames.map (fun f => f.frequency_bands.bass)).sum / n
  let avg_mid := (frames.map (fun f => f.frequency_bands.mid)).sum / n
  let avg_treble := (frames.map (fun f => f.frequency_bands.treble)).sum / n
  let dominant_frequency_range :=
    if avg_bass > avg_mid ∧ avg_bass > avg_treble then "Bass-Heavy"
    else if avg_treble > avg_bass ∧ avg_treble > avg_mid then "Treble-Focused"
    else "Balanced"
  let avg_volume := (frames.map (fun f => f.volume)).sum / n
  let volume_variance := (frames.map (fun f => (f.volume - avg_volume) ^ 2)).sum / n
  let energy_profile :=
    if volume_variance > 0.1 then "Dynamic"
    else if avg_volume > 0.3 then "High"
    else if avg_volume > 0.1 then "Medium"
    else "Low"
  let spectral_complexity := (frames.map (fun f => f.spectral_flux)).sum / n
  let harmonic_complexity := (frames.map (fun f => f.pitch_confidence)).sum / n
  { stats with
    dominant_frequency_range := dominant_frequency_range
    energy_profile := energy_profile
    complexity_score := min (spectral_complexity + harmonic_complexity + volume_variance) 1 }

end PrescanProcessor

/-! ## src/audio/prescan.rs: SynchronizedPlayback -/

namespace SynchronizedPlayback

/-- The forward-scan phase of `get_synchronized_frame` (prescan.rs lines
325-342): advance the cursor while the current frame has started; the `Bool`
records whether the loop returned a frame directly (`return Some(frame)`). -/
def scanForward (frames : List PrescanFrame) (t : ℚ) (k : ℕ) : Bool × ℕ :=
  if h : k < frames.length then
    if (frames.get ⟨k, h⟩).timestamp ≤ t then
      if h2 : k + 1 < frames.length then
        if (frames.get ⟨k + 1, h2⟩).timestamp > t then (true, k)
        else scanForward frames t (k + 1)
      else (true, k)
    else (false, k)
  else (false, k)
termination_by frames.length - k

/-- The backward-correction phase (prescan.rs lines 345-350): step the cursor
back while the frame at the cursor starts after `t`. -/
def scanBack (frames : List PrescanFrame) (t : ℚ) : ℕ → ℕ
  | 0 => 0
  | k + 1 =>
    match frames[k + 1]? with
    | some f => if f.timestamp > t then scanBack frames t k else k + 1
    | none => k + 1

/-- `SynchronizedPlayback::get_synchronized_frame` (prescan.rs lines 321-353),
as a function of the frame sequence and the stored cursor `frame_index`;
returns the new cursor and the result. -/
def get_synchronized_frame (frames : List PrescanFrame) (cursor : ℕ) (t : ℚ) :
    ℕ × Option PrescanFrame :=
  match scanForward frames t cursor with
  | (true, k) => (k, frames[k]?)
  | (false, k) =>
    let k2 := scanBack frames t k
    (k2, frames[k2]?)

end SynchronizedPlayback

/-! ## src/audio/fft.rs: AudioAnalyzer

The analyzer calls two irrational-valued operations: the external FFT library
(`self.fft.process`) and `f32::sqrt` (complex norms, RMS volume).  They are
abstracted as the parameters `fftProcess` (on complex buffers, represented as
pairs of rationals) and `sqrtFn`.  The Hann window values use `f32::cos`, so
the window vector built by `hann_window` is likewise passed as a parameter to
the constructor. -/

/-- `NormalizationFactors` with its `Default` values (fft.rs lines 20-63). -/
structure NormalizationFactors where
  bass_max : ℚ
  mid_max : ℚ
  treble_max : ℚ
  presence_max : ℚ
  sub_bass_max : ℚ
  spectral_centroid_max : ℚ
  spectral_rolloff_max : ℚ
  pitch_confidence_max : ℚ
  zero_crossing_max : ℚ
  dynamic_range_max : ℚ
  spectral_flux_max : ℚ
  onset_strength_max : ℚ
deriving DecidableEq, Repr

/-- `NormalizationFactors::default` (fft.rs lines 41-63). -/
def NormalizationFactors.default : NormalizationFactors where
  bass_max := 0.6
  mid_max := 0.1
  treble_max := 0.035
  presence_max := 0.01
  sub_bass_max := 0.1
  spectral_centroid_max := 16000.0
  spectral_rolloff_max := 20000.0
  pitch_confidence_max := 1.0
  zero_crossing_max := 0.5
  dynamic_range_max := 0.8
  spectral_flux_max := 0.02
  onset_strength_max := 0.15

/-- `TempoDetector` (fft.rs lines 65-70). -/
structure TempoDetector where
  beat_intervals : List ℚ
  last_beat_time : ℚ
  current_time : ℚ
  estimated_bpm : ℚ
deriving DecidableEq, Repr

namespace TempoDetector

/-- `TempoDetector::new` (fft.rs lines 73-80). -/
def new : TempoDetector where
  beat_intervals := []
  last_beat_time := 0
  current_time := 0
  estimated_bpm := 120.0

/-- `TempoDetector::update` (fft.rs lines 82-101). -/
def update (t : TempoDetector) (beat_detected : Bool) (time_delta : ℚ) : TempoDetector :=
  let current_time := t.current_time + time_delta
  if beat_detected then
    if t.last_beat_time > 0 then
      let interval := current_time - t.last_beat_time
      if interval > 0.3 ∧ interval < 2.0 then
        let intervals := pushCap t.beat_intervals interval 8
        let avg_interval := intervals.sum / (intervals.length : ℚ)
        { beat_intervals := intervals
          last_beat_time := current_time
          current_time := current_time
          estimated_bpm := 60 / avg_interval }
      else
        { t with current_time := current_time, last_beat_time := current_time }
    else
      { t with current_time := current_time, last_beat_time := current_time }
  else
    { t with current_time := current_time }

end TempoDetector

/-- `AudioAnalyzer` (fft.rs lines 4-18). -/
structure AudioAnalyzer where
  sample_rate : ℚ
  fft_size : ℕ
  window : List ℚ
  beat_detector : BeatDetector
  previous_spectrum : List ℚ
  volume_history : List ℚ
  tempo_detector : TempoDetector
  normalization_factors : NormalizationFactors
deriving DecidableEq, Repr

namespace AudioAnalyzer

/-- `AudioAnalyzer::new` (fft.rs lines 105-122); the Hann window values are
cosine-valued and passed in as `window`. -/
def new (window : List ℚ) (sample_rate : ℚ) (fft_size : ℕ) : AudioAnalyzer where
  sample_rate := sample_rate
  fft_size := fft_size
  window := window
  beat_detector := BeatDetector.new sample_rate
  previous_spectrum := List.replicate (fft_size / 2 + 1) 0
  volume_history := []
  tempo_detector := TempoDetector.new
  normalization_factors := NormalizationFactors.default

/-- `AudioAnalyzer::apply_window` (fft.rs lines 193-198). -/
def apply_window (a : AudioAnalyzer) (audio_data : List ℚ) : List ℚ :=
  (List.range (min a.fft_size audio_data.length)).map
    (fun i => audio_data.getD i 0 * a.window.getD i 0)

/-- `AudioAnalyzer::compute_fft` (fft.rs lines 200-216).  The library call
`self.fft.process` is the abstract `fftProcess`; `Complex::norm` is
`sqrtFn (re^2 + im^2)`. -/
def compute_fft (fftProcess : List (ℚ × ℚ) → List (ℚ × ℚ)) (sqrtFn : ℚ → ℚ)
    (a : AudioAnalyzer) (windowed_data : List ℚ) : List ℚ :=
  let buffer := windowed_data.map (fun x => ((x : ℚ), (0 : ℚ)))
  let buffer :=
    if buffer.length < a.fft_size
    then buffer ++ List.replicate (a.fft_size - buffer.length) (0, 0)
    else buffer
  let buffer := fftProcess buffer
  (buffer.take (a.fft_size / 2)).map
    (fun c => sqrtFn (c.1 ^ 2 + c.2 ^ 2) * 2 / (a.fft_size : ℚ))

/-- `AudioAnalyzer::average_range` (fft.rs lines 242-250). -/
def average_range (data : List ℚ) (s e : ℕ) : ℚ :=
  if s ≥ e ∨ s ≥ data.length then 0
  else
    let e2 := min e data.length
    ((data.drop s).take (e2 - s)).sum / ((e2 - s : ℕ) : ℚ)

/-- `AudioAnalyzer::extract_frequency_bands` (fft.rs lines 218-240).  The
`(hz / bin_width) as usize` casts truncate. -/
def extract_frequency_bands (a : AudioAnalyzer) (spectrum : List ℚ) : FrequencyBands :=
  let bin_width := a.sample_rate / (a.fft_size : ℚ)
  let len := spectrum.length
  let sub_bass_end := (⌊(60 : ℚ) / bin_width⌋).toNat
  let bass_end := (⌊(250 : ℚ) / bin_width⌋).toNat
  let mid_end := (⌊(2000 : ℚ) / bin_width⌋).toNat
  let treble_end := (⌊(8000 : ℚ) / bin_width⌋).toNat
  { sub_bass := average_range spectrum 0 (min sub_bass_end len)
    bass := average_range spectrum sub_bass_end (min bass_end len)
    mid := average_range spectrum bass_end (min mid_end len)
    treble := average_range spectrum mid_end (min treble_end len)
    presence := average_range spectrum treble_end len }

/-- `AudioAnalyzer::calculate_spectral_centroid` (fft.rs lines 253-266). -/
def calculate_spectral_centroid (a : AudioAnalyzer) (spectrum : List ℚ) : ℚ :=
  let total_energy := spectrum.sum
  if total_energy = 0 then 0
  else
    let weighted_sum := (spectrum.enum.map (fun p => (p.1 : ℚ) * p.2)).sum
    (weighted_sum / total_energy) * (a.sample_rate / 2) / (spectrum.length : ℚ)

/-- The scanning loop of `calculate_spectral_rolloff` (fft.rs lines 272-279). -/
def rolloffLoop (sample_rate : ℚ) (len : ℕ) (threshold : ℚ) :
    List (ℕ × ℚ) → ℚ → ℚ
  | [], _ => sample_rate / 2
  | (i, magnitude) :: rest, cumulative =>
    let cumulative := cumulative + magnitude
    if cumulative ≥ threshold then ((i : ℚ) / (len : ℚ)) * (sample_rate / 2)
    else rolloffLoop sample_rate len threshold rest cumulative

/-- `AudioAnalyzer::calculate_spectral_rolloff` (fft.rs lines 268-280). -/
def calculate_spectral_rolloff (a : AudioAnalyzer) (spectrum : List ℚ) : ℚ :=
  rolloffLoop a.sample_rate spectrum.length (spectrum.sum * 0.85) spectrum.enum 0

/-- `AudioAnalyzer::calculate_zero_crossing_rate` (fft.rs lines 282-293). -/
def calculate_zero_crossing_rate (audio_data : List ℚ) : ℚ :=
  if audio_data.length < 2 then 0
  else
    let zero_crossings :=
      ((audio_data.zip audio_data.tail).filter (fun p => decide (p.1 * p.2 < 0))).length
    (zero_crossings : ℚ) / ((audio_data.length - 1 : ℕ) : ℚ)

/-- `AudioAnalyzer::calculate_spectral_flux` (fft.rs lines 295-306). -/
def calculate_spectral_flux (a : AudioAnalyzer) (spectrum : List ℚ) : ℚ :=
  if a.previous_spectrum.length ≠ spectrum.length then 0
  else
    ((spectrum.zip a.previous_spectrum).map (fun p => |p.1 - p.2|)).sum
      / (spectrum.length : ℚ)

/-- `AudioAnalyzer::calculate_onset_strength` (fft.rs lines 308-319): the
slices `spectrum[1..10.min(len)]` are `take` then `drop 1`. -/
def calculate_onset_strength (a : AudioAnalyzer) (spectrum : List ℚ) : ℚ :=
  let low_bands := (spectrum.take (min 10 spectrum.length)).drop 1
  let energy := low_bands.sum
  let prev_energy :=
    if a.previous_spectrum.length ≥ 10
    then ((a.previous_spectrum.take (min 10 a.previous_spectrum.length)).drop 1).sum
    else 0
  max (energy - prev_energy) 0 / (low_bands.length : ℚ)

/-- `AudioAnalyzer::calculate_pitch_confidence` (fft.rs lines 321-337). -/
def calculate_pitch_confidence (spectrum : List ℚ) : ℚ :=
  if spectrum.length < 10 then 0
  else
    let fundamental_region := (spectrum.take (min 50 spectrum.length)).drop 2
    let high_freq_region := (spectrum.take (min 200 spectrum.length)).drop 100
    let fundamental_energy := fundamental_region.sum
    let high_freq_energy := high_freq_region.sum
    if fundamental_energy + high_freq_energy = 0 then 0
    else fundamental_energy / (fundamental_energy + high_freq_energy)

/-- `AudioAnalyzer::calculate_dynamic_range` (fft.rs lines 339-348). -/
def calculate_dynamic_range (a : AudioAnalyzer) : ℚ :=
  if a.volume_history.length < 2 then 0
  else
    let max_volume := a.volume_history.foldl max 0
    let min_volume := a.volume_history.foldl min 1
    max_volume - min_volume

/-- `AudioAnalyzer::analyze` (fft.rs lines 133-191), returning the updated
analyzer state together with the produced `AudioFrame`. -/
def analyze (fftProcess : List (ℚ × ℚ) → List (ℚ × ℚ)) (sqrtFn : ℚ → ℚ)
    (a : AudioAnalyzer) (audio_data : List ℚ) : AudioAnalyzer × AudioFrame :=
  let windowed_data := a.apply_window audio_data
  let spectrum := compute_fft fftProcess sqrtFn a windowed_data
  let frequency_bands := extract_frequency_bands a spectrum
  let volume := sqrtFn ((audio_data.map (fun x => x * x)).sum / (audio_data.length : ℚ))
  let spectral_centroid := calculate_spectral_centroid a spectrum
  let spectral_rolloff := calculate_spectral_rolloff a spectrum
  let zero_crossing_rate := calculate_zero_crossing_rate audio_data
  let spectral_flux := calculate_spectral_flux a spectrum
  let onset_strength := calculate_onset_strength a spectrum
  let pitch_confidence := calculate_pitch_confidence spectrum
  let volume_history := pushCap a.volume_history volume 100
  let a1 := { a with volume_history := volume_history }
  let dynamic_range := calculate_dynamic_range a1
  let bd := BeatDetector.detect_beat sqrtFn a.beat_detector frequency_bands
  let beat_detected := bd.2.1
  let beat_strength := bd.2.2
  let tempo_detector := a.tempo_detector.update beat_detected (1 / 60)
  let f := a.normalization_factors
  ({ a1 with
      beat_detector := bd.1
      tempo_detector := tempo_detector
      previous_spectrum := spectrum },
   { sample_rate := a.sample_rate
     spectrum := spectrum
     time_domain := audio_data.take (min a.fft_size audio_data.length)
     frequency_bands :=
       { bass := clampQ (frequency_bands.bass / f.bass_max) 0 1
         mid := clampQ (frequency_bands.mid / f.mid_max) 0 1
         treble := clampQ (frequency_bands.treble / f.treble_max) 0 1
         presence := clampQ (frequency_bands.presence / f.presence_max) 0 1
         sub_bass := clampQ (frequency_bands.sub_bass / f.sub_bass_max) 0 1 }
     beat_detected := beat_detected
     beat_strength := beat_strength
     volume := volume
     spectral_centroid := clampQ (spectral_centroid / f.spectral_centroid_max) 0 1
     spectral_rolloff := clampQ (spectral_rolloff / f.spectral_rolloff_max) 0 1
     zero_crossing_rate := clampQ (zero_crossing_rate / f.zero_crossing_max) 0 1
     spectral_flux := clampQ (spectral_flux / f.spectral_flux_max) 0 1
     onset_strength := clampQ (onset_strength / f.onset_strength_max) 0 1
     pitch_confidence := clampQ (pitch_confidence / f.pitch_confidence_max) 0 1
     estimated_bpm := tempo_detector.estimated_bpm
     dynamic_range := clampQ (dynamic_range / f.dynamic_range_max) 0 1 })

end AudioAnalyzer

/-! ## src/audio/prescan.rs: prescan_file -/

namespace PrescanProcessor

/-- `bpm_values.iter().fold(f32::INFINITY, min)`: the infinite sentinel is not
representable in `ℚ`; folding from the first element gives the same value on
every non-empty list, and the source only evaluates the fold on non-empty
lists. -/
def listMinQ (l : List ℚ) : ℚ := l.foldl min (l.headD 0)

/-- `bpm_values.iter().fold(f32::NEG_INFINITY, max)`, same remark. -/
def listMaxQ (l : List ℚ) : ℚ := l.foldl max (l.headD 0)

/-- The chunk loop of `prescan_file` (prescan.rs lines 137-156).  The source
loop does not terminate when `chunk_size = 0`; the `0 < chunk_size` guard makes
the model total and agrees with the source whenever the source terminates. -/
def prescanLoop (fftProcess : List (ℚ × ℚ) → List (ℚ × ℚ)) (sqrtFn : ℚ → ℚ)
    (chunk_size : ℕ) (sample_rate : ℚ) (audio_buffer : List ℚ)
    (a : AudioAnalyzer) (sample_pos : ℕ) (frames : List PrescanFrame)
    (stats : AnalysisStatistics) (beat_count : ℕ) (bpm_values : List ℚ) :
    List PrescanFrame × AnalysisStatistics × ℕ × List ℚ :=
  if h : sample_pos + chunk_size ≤ audio_buffer.length ∧ 0 < chunk_size then
    let chunk := (audio_buffer.drop sample_pos).take chunk_size
    let r := AudioAnalyzer.analyze fftProcess sqrtFn a chunk
    let timestamp := (sample_pos : ℚ) / sample_rate
    let prescan_frame := { PrescanFrame.fromAudioFrame r.2 with timestamp := timestamp }
    let u := update_statistics stats r.2 beat_count bpm_values
    prescanLoop fftProcess sqrtFn chunk_size sample_rate audio_buffer
      r.1 (sample_pos + chunk_size) (frames ++ [prescan_frame]) u.1 u.2.1 u.2.2
  else (frames, stats, beat_count, bpm_values)
termination_by audio_buffer.length - sample_pos
decreasing_by
  obtain ⟨h1, h2⟩ := h
  omega

/-- `PrescanProcessor::prescan_file` (prescan.rs lines 115-186) after the audio
file has been decoded into `audio_buffer` (decoding is an external
collaborator).  `window` is the Hann window of `AudioAnalyzer::new`. -/
def prescanBuffer (fftProcess : List (ℚ × ℚ) → List (ℚ × ℚ)) (sqrtFn : ℚ → ℚ)
    (window : List ℚ) (path_str : String) (sample_rate : ℚ) (chunk_size : ℕ)
    (audio_buffer : List ℚ) : PrescanData :=
  let total_samples := audio_buffer.length
  let duration_seconds := (total_samples : ℚ) / sample_rate
  let frame_rate := sample_rate / (chunk_size : ℚ)
  let analyzer := AudioAnalyzer.new window sample_rate chunk_size
  let r := prescanLoop fftProcess sqrtFn chunk_size sample_rate audio_buffer
      analyzer 0 [] AnalysisStatistics.default 0 []
  let frames := r.1
  let bpm_values := r.2.2.2
  let stats := { r.2.1 with total_beats := r.2.2.1 }
  let stats :=
    if bpm_values.isEmpty then stats
    else
      { stats with
        average_bpm := bpm_values.sum / (bpm_values.length : ℚ)
        bpm_range := (listMinQ bpm_values, listMaxQ bpm_values) }
  let stats := classify_content stats frames
  { file_info :=
      { filename := path_str
        duration_seconds := duration_seconds
        sample_rate := sample_rate
        total_samples := total_samples
        frame_rate := frame_rate
        chunk_size := chunk_size }
    frames := frames
    statistics := stats }

end PrescanProcessor

/-! ## src/audio/arv_format.rs: byte-level save/load

Bytes are naturals `< 256`.  The JSON encoding of `FileInfo` and
`AnalysisStatistics` is performed by the external `serde_json` crate; it is
abstracted as a `JsonCodec` record of encode/decode functions, and theorems
that need it assume the decode-of-encode round trip that `serde_json`
provides.

`PackedFrame` is `#[repr(packed)]`, so its size is the sum of its field sizes:
eight `u16` (16 bytes) + `beat_data: u8` + `beat_strength: u8` +
`reserved: u16` = 20 bytes.  `save_arv` copies only `BYTES_PER_FRAME = 16`
bytes of it — exactly the eight little-endian `u16` fields; the beat fields
are never written.  `load_arv` reads 16 bytes into a buffer and reinterprets
it as the 20-byte struct, so the four bytes it takes `beat_data`,
`beat_strength` and `reserved` from lie past the end of the buffer: their
values are undefined.  The model makes this explicit with a `junkFn`
parameter giving the four out-of-bounds bytes read for each frame. -/

/-- Little-endian bytes of a `u16` value. -/
def u16ToLe (v : ℕ) : List ℕ := [v % 256, v / 256 % 256]

/-- Little-endian bytes of a `u32` value. -/
def u32ToLe (v : ℕ) : List ℕ :=
  [v % 256, v / 256 % 256, v / 65536 % 256, v / 16777216 % 256]

/-- `u16::from_le_bytes`. -/
def leToU16 (b0 b1 : ℕ) : ℕ := b0 + 256 * b1

/-- `u32::from_le_bytes`. -/
def leToU32 (b0 b1 b2 b3 : ℕ) : ℕ := b0 + 256 * b1 + 65536 * b2 + 16777216 * b3

/-- `MAGIC_BYTES = b"ARVV"` (arv_format.rs line 24). -/
def magicBytes : List ℕ := [65, 82, 86, 86]

/-- `FORMAT_VERSION = 1` (line 26). -/
def formatVersion : ℕ := 1

/-- The in-memory `PackedFrame` struct (arv_format.rs lines 33-52). -/
structure PackedFrameData where
  bass : ℕ
  mid : ℕ
  treble : ℕ
  sub_bass : ℕ
  presence : ℕ
  spectral_centroid : ℕ
  pitch_confidence : ℕ
  onset_strength : ℕ
  beat_data : ℕ
  beat_strength : ℕ
  reserved : ℕ
deriving DecidableEq, Repr

namespace PackedFrameData

/-- `PackedFrame::from_prescan_frame` (lines 75-92); the `_timestamp` argument
is unused in the source. -/
def from_prescan_frame (frame : PrescanFrame) (timestampArg : ℚ) : PackedFrameData :=
  let _ := timestampArg
  { bass := PackedFrame.pack_float frame.frequency_bands.bass
    mid := PackedFrame.pack_float frame.frequency_bands.mid
    treble := PackedFrame.pack_float frame.frequency_bands.treble
    sub_bass := PackedFrame.pack_float frame.frequency_bands.sub_bass
    presence := PackedFrame.pack_float frame.frequency_bands.presence
    spectral_centroid := PackedFrame.pack_float frame.spectral_centroid
    pitch_confidence := PackedFrame.pack_float frame.pitch_confidence
    onset_strength := PackedFrame.pack_float frame.onset_strength
    beat_data := if frame.beat_detected then 1 else 0
    beat_strength := PackedFrame.pack_beat_strength frame.beat_strength
    reserved := 0 }

/-- `PackedFrame::to_prescan_frame` (lines 94-116). -/
def to_prescan_frame (p : PackedFrameData) (timestamp estimated_bpm : ℚ) : PrescanFrame :=
  { timestamp := timestamp
    frequency_bands :=
      { bass := PackedFrame.unpack_float p.bass
        mid := PackedFrame.unpack_float p.mid
        treble := PackedFrame.unpack_float p.treble
        sub_bass := PackedFrame.unpack_float p.sub_bass
        presence := PackedFrame.unpack_float p.presence }
    beat_detected := decide (p.beat_data % 2 ≠ 0)
    beat_strength := PackedFrame.unpack_beat_strength p.beat_strength
    estimated_bpm := estimated_bpm
    spectral_centroid := PackedFrame.unpack_float p.spectral_centroid
    spectral_rolloff := 0
    pitch_confidence := PackedFrame.unpack_float p.pitch_confidence
    zero_crossing_rate := 0
    spectral_flux := 0
    onset_strength := PackedFrame.unpack_float p.onset_strength
    dynamic_range := 0
    volume := 0 }

/-- The `BYTES_PER_FRAME = 16` bytes `save_arv` copies out of the struct
(lines 149-158): the eight little-endian `u16` fields, nothing more. -/
def bytes16 (p : PackedFrameData) : List ℕ :=
  u16ToLe p.bass ++ u16ToLe p.mid ++ u16ToLe p.treble ++ u16ToLe p.sub_bass ++
  u16ToLe p.presence ++ u16ToLe p.spectral_centroid ++ u16ToLe p.pitch_confidence ++
  u16ToLe p.onset_strength

/-- The struct `load_arv` obtains by reinterpreting a 16-byte buffer as a
20-byte `PackedFrame` (lines 208-210): the `u16` fields come from the buffer,
the final four bytes (`junk`) come from past its end. -/
def ofBytes (buf : List ℕ) (junk : List ℕ) : PackedFrameData :=
  { bass := leToU16 (buf.getD 0 0) (buf.getD 1 0)
    mid := leToU16 (buf.getD 2 0) (buf.getD 3 0)
    treble := leToU16 (buf.getD 4 0) (buf.getD 5 0)
    sub_bass := leToU16 (buf.getD 6 0) (buf.getD 7 0)
    presence := leToU16 (buf.getD 8 0) (buf.getD 9 0)
    spectral_centroid := leToU16 (buf.getD 10 0) (buf.getD 11 0)
    pitch_confidence := leToU16 (buf.getD 12 0) (buf.getD 13 0)
    onset_strength := leToU16 (buf.getD 14 0) (buf.getD 15 0)
    beat_data := junk.getD 0 0
    beat_strength := junk.getD 1 0
    reserved := leToU16 (junk.getD 2 0) (junk.getD 3 0) }

end PackedFrameData

/-- Abstraction of the `serde_json` string encodings used for the two header
sections. -/
structure JsonCodec where
  encFileInfo : FileInfo → List ℕ
  decFileInfo : List ℕ → Option FileInfo
  encStats : AnalysisStatistics → List ℕ
  decStats : List ℕ → Option AnalysisStatistics

/-- Error cases of `load_arv` (the `anyhow` errors of lines 164-227). -/
inductive ArvError where
  | ioError
  | invalidMagic
  | unsupportedVersion (v : ℕ)
  | jsonError
deriving DecidableEq, Repr

namespace ArvFormat

/-- `ArvFormat::save_arv` (lines 124-161) as the byte stream it writes. -/
def save_arv (jc : JsonCodec) (d : PrescanData) : List ℕ :=
  let file_info_json := jc.encFileInfo d.file_info
  let stats_json := jc.encStats d.statistics
  magicBytes ++ [formatVersion] ++
  u32ToLe file_info_json.length ++ file_info_json ++
  u32ToLe stats_json.length ++ stats_json ++
  u32ToLe d.frames.length ++
  (d.frames.map
    (fun f => (PackedFrameData.from_prescan_frame f f.timestamp).bytes16)).flatten

/-- `reader.read_exact` on a byte list: the requested bytes plus the rest, or
failure on a short read. -/
def readExact (n : ℕ) (bs : List ℕ) : Option (List ℕ × List ℕ) :=
  if n ≤ bs.length then some (bs.take n, bs.drop n) else none

/-- The frame-reading loop of `load_arv` (lines 202-220): `count` frames of 16
bytes each, frame `i` getting timestamp `i / frame_rate`, BPM from the
statistics, and its out-of-bounds beat bytes from `junkFn i`. -/
def loadFrames (junkFn : ℕ → List ℕ) (frame_rate average_bpm : ℚ) :
    ℕ → ℕ → List ℕ → Option (List PrescanFrame)
  | 0, _, _ => some []
  | count + 1, i, bs =>
    match readExact 16 bs with
    | none => none
    | some (buf, rest) =>
      let packed := PackedFrameData.ofBytes buf (junkFn i)
      let timestamp := (i : ℚ) / frame_rate
      let frame := packed.to_prescan_frame timestamp average_bpm
      match loadFrames junkFn frame_rate average_bpm count (i + 1) rest with
      | none => none
      | some frames => some (frame :: frames)

/-- `ArvFormat::load_arv` (lines 164-227). -/
def load_arv (jc : JsonCodec) (junkFn : ℕ → List ℕ) (bs : List ℕ) :
    Except ArvError PrescanData :=
  match readExact 4 bs with
  | none => .error .ioError
  | some (magic, bs) =>
    if magic ≠ magicBytes then .error .invalidMagic
    else
      match readExact 1 bs with
      | none => .error .ioError
      | some (ver, bs) =>
        let v := ver.getD 0 0
        if v ≠ formatVersion then .error (.unsupportedVersion v)
        else
          match readExact 4 bs with
          | none => .error .ioError
          | some (len1, bs) =>
            let file_info_len :=
              leToU32 (len1.getD 0 0) (len1.getD 1 0) (len1.getD 2 0) (len1.getD 3 0)
            match readExact file_info_len bs with
            | none => .error .ioError
            | some (file_info_json, bs) =>
              match jc.decFileInfo file_info_json with
              | none => .error .jsonError
              | some file_info =>
                match readExact 4 bs with
                | none => .error .ioError
                | some (len2, bs) =>
                  let stats_len :=
                    leToU32 (len2.getD 0 0) (len2.getD 1 0) (len2.getD 2 0) (len2.getD 3 0)
                  match readExact stats_len bs with
                  | none => .error .ioError
                  | some (stats_json, bs) =>
                    match jc.decStats stats_json with
                    | none => .error .jsonError
                    | some statistics =>
                      match readExact 4 bs with
                      | none => .error .ioError
                      | some (len3, bs) =>
                        let frame_count :=
                          leToU32 (len3.getD 0 0) (len3.getD 1 0) (len3.getD 2 0) (len3.getD 3 0)
                        match loadFrames junkFn file_info.frame_rate
                            statistics.average_bpm frame_count 0 bs with
                        | none => .error .ioError
                        | some frames =>
                          .ok { file_info := file_info
                                frames := frames
                                statistics := statistics }

end ArvFormat

/-! ## Claim C1: normalizer boundedness -/

set_option maxHeartbeats 1600000 in
/-- C1: for every `RawAudioFeatures` with non-negative fields and every
normalizer whose effective bounds (for the parameters actually used by this
`normalize` call) are positive, every continuous output field equals
`clamp(raw / bound, 0, 1)` and hence lies in `[0, 1]`, while `estimated_bpm`
is clamped into `[bpm_min, bpm_max]` rather than divided. -/
theorem C1_normalize_bounds (n : FeatureNormalizer) (raw : RawAudioFeatures)
    (_hraw : 0 ≤ raw.sub_bass ∧ 0 ≤ raw.bass ∧ 0 ≤ raw.mid ∧ 0 ≤ raw.treble ∧
      0 ≤ raw.presence ∧ 0 ≤ raw.spectral_centroid ∧ 0 ≤ raw.spectral_rolloff ∧
      0 ≤ raw.spectral_flux ∧ 0 ≤ raw.zero_crossing_rate ∧ 0 ≤ raw.onset_strength ∧
      0 ≤ raw.beat_strength ∧ 0 ≤ raw.estimated_bpm ∧ 0 ≤ raw.volume ∧
      0 ≤ raw.dynamic_range ∧ 0 ≤ raw.pitch_confidence)
    (_hpos : 0 < (n.after_update raw).effective_parameters.sub_bass_max ∧
      0 < (n.after_update raw).effective_parameters.bass_max ∧
      0 < (n.after_update raw).effective_parameters.mid_max ∧
      0 < (n.after_update raw).effective_parameters.treble_max ∧
      0 < (n.after_update raw).effective_parameters.presence_max ∧
      0 < (n.after_update raw).effective_parameters.spectral_centroid_max ∧
      0 < (n.after_update raw).effective_parameters.spectral_rolloff_max ∧
      0 < (n.after_update raw).effective_parameters.spectral_flux_max ∧
      0 < (n.after_update raw).effective_parameters.zero_crossing_rate_max ∧
      0 < (n.after_update raw).effective_parameters.onset_strength_max ∧
      0 < (n.after_update raw).effective_parameters.beat_strength_max ∧
      0 < (n.after_update raw).effective_parameters.volume_max ∧
      0 < (n.after_update raw).effective_parameters.dynamic_range_max ∧
      0 < (n.after_update raw).effective_parameters.pitch_confidence_max) :
    let p := (n.after_update raw).effective_parameters
    let out := (n.normalize raw).2
    (out.sub_bass = clampQ (raw.sub_bass / p.sub_bass_max) 0 1 ∧
       0 ≤ out.sub_bass ∧ out.sub_bass ≤ 1) ∧
    (out.bass = clampQ (raw.bass / p.bass_max) 0 1 ∧ 0 ≤ out.bass ∧ out.bass ≤ 1) ∧
    (out.mid = clampQ (raw.mid / p.mid_max) 0 1 ∧ 0 ≤ out.mid ∧ out.mid ≤ 1) ∧
    (out.treble = clampQ (raw.treble / p.treble_max) 0 1 ∧
       0 ≤ out.treble ∧ out.treble ≤ 1) ∧
    (out.presence = clampQ (raw.presence / p.presence_max) 0 1 ∧
       0 ≤ out.presence ∧ out.presence ≤ 1) ∧
    (out.spectral_centroid = clampQ (raw.spectral_centroid / p.spectral_centroid_max) 0 1 ∧
       0 ≤ out.spectral_centroid ∧ out.spectral_centroid ≤ 1) ∧
    (out.spectral_rolloff = clampQ (raw.spectral_rolloff / p.spectral_rolloff_max) 0 1 ∧
       0 ≤ out.spectral_rolloff ∧ out.spectral_rolloff ≤ 1) ∧
    (out.spectral_flux = clampQ (raw.spectral_flux / p.spectral_flux_max) 0 1 ∧
       0 ≤ out.spectral_flux ∧ out.spectral_flux ≤ 1) ∧
    (out.zero_crossing_rate = clampQ (raw.zero_crossing_rate / p.zero_crossing_rate_max) 0 1 ∧
       0 ≤ out.zero_crossing_rate ∧ out.zero_crossing_rate ≤ 1) ∧
    (out.onset_strength = clampQ (raw.onset_strength / p.onset_strength_max) 0 1 ∧
       0 ≤ out.onset_strength ∧ out.onset_strength ≤ 1) ∧
    (out.beat_strength = clampQ (raw.beat_strength / p.beat_strength_max) 0 1 ∧
       0 ≤ out.beat_strength ∧ out.beat_strength ≤ 1) ∧
    (out.volume = clampQ (raw.volume / p.volume_max) 0 1 ∧ 0 ≤ out.volume ∧ out.volume ≤ 1) ∧
    (out.dynamic_range = clampQ (raw.dynamic_range / p.dynamic_range_max) 0 1 ∧
       0 ≤ out.dynamic_range ∧ out.dynamic_range ≤ 1) ∧
    (out.pitch_confidence = clampQ (raw.pitch_confidence / p.pitch_confidence_max) 0 1 ∧
       0 ≤ out.pitch_confidence ∧ out.pitch_confidence ≤ 1) ∧
    out.estimated_bpm = clampQ raw.estimated_bpm p.bpm_min p.bpm_max := by
  refine ⟨⟨rfl, ?_, ?_⟩, ⟨rfl, ?_, ?_⟩, ⟨rfl, ?_, ?_⟩, ⟨rfl, ?_, ?_⟩, ⟨rfl, ?_, ?_⟩,
    ⟨rfl, ?_, ?_⟩, ⟨rfl, ?_, ?_⟩, ⟨rfl, ?_, ?_⟩, ⟨rfl, ?_, ?_⟩, ⟨rfl, ?_, ?_⟩,
    ⟨rfl, ?_, ?_⟩, ⟨rfl, ?_, ?_⟩, ⟨rfl, ?_, ?_⟩, ⟨rfl, ?_, ?_⟩, rfl⟩ <;>
  first
    | exact clampQ_nonneg _ _ (by norm_num)
    | exact clampQ_le _ _ _

/-- A concrete raw feature record with every field equal to `1`. -/
def rawOne : RawAudioFeatures where
  sub_bass := 1
  bass := 1
  mid := 1
  treble := 1
  presence := 1
  spectral_centroid := 1
  spectral_rolloff := 1
  spectral_flux := 1
  zero_crossing_rate := 1
  onset_strength := 1
  beat_strength := 1
  estimated_bpm := 1
  volume := 1
  dynamic_range := 1
  pitch_confidence := 1

/-- Witness for C1 at the default fixed normalizer and the all-ones record. -/
theorem C1_normalize_bounds_witness :
    let p := (FeatureNormalizer.new.after_update rawOne).effective_parameters
    let out := (FeatureNormalizer.new.normalize rawOne).2
    (out.sub_bass = clampQ (rawOne.sub_bass / p.sub_bass_max) 0 1 ∧
       0 ≤ out.sub_bass ∧ out.sub_bass ≤ 1) ∧
    (out.bass = clampQ (rawOne.bass / p.bass_max) 0 1 ∧ 0 ≤ out.bass ∧ out.bass ≤ 1) ∧
    (out.mid = clampQ (rawOne.mid / p.mid_max) 0 1 ∧ 0 ≤ out.mid ∧ out.mid ≤ 1) ∧
    (out.treble = clampQ (rawOne.treble / p.treble_max) 0 1 ∧
       0 ≤ out.treble ∧ out.treble ≤ 1) ∧
    (out.presence = clampQ (rawOne.presence / p.presence_max) 0 1 ∧
       0 ≤ out.presence ∧ out.presence ≤ 1) ∧
    (out.spectral_centroid = clampQ (rawOne.spectral_centroid / p.spectral_centroid_max) 0 1 ∧
       0 ≤ out.spectral_centroid ∧ out.spectral_centroid ≤ 1) ∧
    (out.spectral_rolloff = clampQ (rawOne.spectral_rolloff / p.spectral_rolloff_max) 0 1 ∧
       0 ≤ out.spectral_rolloff ∧ out.spectral_rolloff ≤ 1) ∧
    (out.spectral_flux = clampQ (rawOne.spectral_flux / p.spectral_flux_max) 0 1 ∧
       0 ≤ out.spectral_flux ∧ out.spectral_flux ≤ 1) ∧
    (out.zero_crossing_rate = clampQ (rawOne.zero_crossing_rate / p.zero_crossing_rate_max) 0 1 ∧
       0 ≤ out.zero_crossing_rate ∧ out.zero_crossing_rate ≤ 1) ∧
    (out.onset_strength = clampQ (rawOne.onset_strength / p.onset_strength_max) 0 1 ∧
       0 ≤ out.onset_strength ∧ out.onset_strength ≤ 1) ∧
    (out.beat_strength = clampQ (rawOne.beat_strength / p.beat_strength_max) 0 1 ∧
       0 ≤ out.beat_strength ∧ out.beat_strength ≤ 1) ∧
    (out.volume = clampQ (rawOne.volume / p.volume_max) 0 1 ∧ 0 ≤ out.volume ∧ out.volume ≤ 1) ∧
    (out.dynamic_range = clampQ (rawOne.dynamic_range / p.dynamic_range_max) 0 1 ∧
       0 ≤ out.dynamic_range ∧ out.dynamic_range ≤ 1) ∧
    (out.pitch_confidence = clampQ (rawOne.pitch_confidence / p.pitch_confidence_max) 0 1 ∧
       0 ≤ out.pitch_confidence ∧ out.pitch_confidence ≤ 1) ∧
    out.estimated_bpm = clampQ rawOne.estimated_bpm p.bpm_min p.bpm_max :=
  C1_normalize_bounds FeatureNormalizer.new rawOne (by norm_num [rawOne])
    (by with_unfolding_all decide)

/-! ## Claim C3: pack/unpack conversions (corrected: truncation, not rounding) -/

/-- C3 counterexample: the claim says `pack_float x = round(clamp(x,0,1)*65535)`
and `pack_beat_strength s = round(clamp(s,0,5)*51)`.  At `x = 0.5` the code's
`as u16` cast truncates `32767.5` to `32767`, while rounding gives `32768`;
at `s = 2.5` the code truncates `127.5` to `127`, while rounding gives `128`. -/
theorem C3_counterexample :
    PackedFrame.pack_float 0.5 = 32767 ∧ round (clampQ 0.5 0 1 * 65535) = 32768 ∧
    PackedFrame.pack_beat_strength 2.5 = 127 ∧ round (clampQ 2.5 0 5 * 51) = 128 := by
  refine ⟨by with_unfolding_all decide, ?_, by with_unfolding_all decide, ?_⟩ <;>
    · rw [round_eq]
      with_unfolding_all decide

/-- C3 amended: `pack_float x` is the `u16` obtained by truncating
`clamp(x,0,1) * 65535` toward zero (the floor, since the product is
non-negative), and `unpack_float v = v / 65535`; likewise `pack_beat_strength`
truncates `clamp(s,0,5) * 51` and `unpack_beat_strength b = b / 51`. -/
theorem C3_amended (x s : ℚ) (v b : ℕ) :
    ((PackedFrame.pack_float x : ℚ) ≤ clampQ x 0 1 * 65535 ∧
      clampQ x 0 1 * 65535 < (PackedFrame.pack_float x : ℚ) + 1) ∧
    PackedFrame.unpack_float v = (v : ℚ) / 65535 ∧
    ((PackedFrame.pack_beat_strength s : ℚ) ≤ clampQ s 0 5 * 51 ∧
      clampQ s 0 5 * 51 < (PackedFrame.pack_beat_strength s : ℚ) + 1) ∧
    PackedFrame.unpack_beat_strength b = (b : ℚ) / 51 := by
  have hx : (0 : ℚ) ≤ clampQ x 0 1 * 65535 :=
    mul_nonneg (clampQ_nonneg x 1 (by norm_num)) (by norm_num)
  have hs : (0 : ℚ) ≤ clampQ s 0 5 * 51 :=
    mul_nonneg (clampQ_nonneg s 5 (by norm_num)) (by norm_num)
  have hfx : ((PackedFrame.pack_float x : ℤ) : ℚ) = ((⌊clampQ x 0 1 * 65535⌋ : ℤ) : ℚ) := by
    unfold PackedFrame.pack_float
    rw [Int.toNat_of_nonneg (Int.floor_nonneg.mpr hx)]
  have hfs : ((PackedFrame.pack_beat_strength s : ℤ) : ℚ) =
      ((⌊clampQ s 0 5 * 51⌋ : ℤ) : ℚ) := by
    unfold PackedFrame.pack_beat_strength
    rw [Int.toNat_of_nonneg (Int.floor_nonneg.mpr hs)]
  refine ⟨⟨?_, ?_⟩, rfl, ⟨?_, ?_⟩, rfl⟩
  · calc (PackedFrame.pack_float x : ℚ) = ((⌊clampQ x 0 1 * 65535⌋ : ℤ) : ℚ) := by
          push_cast at hfx ⊢; exact hfx
      _ ≤ clampQ x 0 1 * 65535 := Int.floor_le _
  · have h1 : clampQ x 0 1 * 65535 < ((⌊clampQ x 0 1 * 65535⌋ : ℤ) : ℚ) + 1 :=
      Int.lt_floor_add_one _
    calc clampQ x 0 1 * 65535 < ((⌊clampQ x 0 1 * 65535⌋ : ℤ) : ℚ) + 1 := h1
      _ = (PackedFrame.pack_float x : ℚ) + 1 := by push_cast at hfx ⊢; rw [hfx]
  · calc (PackedFrame.pack_beat_strength s : ℚ) = ((⌊clampQ s 0 5 * 51⌋ : ℤ) : ℚ) := by
          push_cast at hfs ⊢; exact hfs
      _ ≤ clampQ s 0 5 * 51 := Int.floor_le _
  · have h1 : clampQ s 0 5 * 51 < ((⌊clampQ s 0 5 * 51⌋ : ℤ) : ℚ) + 1 :=
      Int.lt_floor_add_one _
    calc clampQ s 0 5 * 51 < ((⌊clampQ s 0 5 * 51⌋ : ℤ) : ℚ) + 1 := h1
      _ = (PackedFrame.pack_beat_strength s : ℚ) + 1 := by push_cast at hfs ⊢; rw [hfs]

/-! ## Claim C8: dominant-frequency-range classification (corrected) -/

/-- A frame on which the claimed comparison (bass+sub_bass vs mid vs
treble+presence) and the implemented one (bass vs mid vs treble) disagree. -/
def cexFrame : PrescanFrame where
  timestamp := 0
  frequency_bands := { bass := 0, mid := 1/2, treble := 3/5, sub_bass := 1, presence := 0 }
  beat_detected := false
  beat_strength := 0
  estimated_bpm := 120
  spectral_centroid := 0
  spectral_rolloff := 0
  pitch_confidence := 0
  zero_crossing_rate := 0
  spectral_flux := 0
  onset_strength := 0
  dynamic_range := 0
  volume := 0

/-- C8 counterexample: on `[cexFrame]` the mean of `bass + sub_bass` (= 1)
exceeds both the mean of `mid` (= 1/2) and the mean of `treble + presence`
(= 3/5), so the claim demands "Bass-Heavy"; the code compares `bass` (0) and
`treble` (3/5) alone and classifies "Treble-Focused". -/
theorem C8_counterexample :
    (([cexFrame].map fun f => f.frequency_bands.bass + f.frequency_bands.sub_bass).sum /
        (([cexFrame].length : ℕ) : ℚ) >
      ([cexFrame].map fun f => f.frequency_bands.mid).sum / (([cexFrame].length : ℕ) : ℚ)) ∧
    (([cexFrame].map fun f => f.frequency_bands.bass + f.frequency_bands.sub_bass).sum /
        (([cexFrame].length : ℕ) : ℚ) >
      ([cexFrame].map fun f => f.frequency_bands.treble + f.frequency_bands.presence).sum /
        (([cexFrame].length : ℕ) : ℚ)) ∧
    (PrescanProcessor.classify_content AnalysisStatistics.default
        [cexFrame]).dominant_frequency_range = "Treble-Focused" := by
  with_unfolding_all decide

/-- C8 amended: the classification compares the per-frame means of the `bass`,
`mid` and `treble` fields alone (`sub_bass` and `presence` are not included):
"Bass-Heavy" iff mean bass exceeds both mean mid and mean treble,
"Treble-Focused" iff mean treble exceeds both mean bass and mean mid,
"Balanced" otherwise. -/
theorem C8_amended (stats : AnalysisStatistics) (frames : List PrescanFrame)
    (hne : frames ≠ []) :
    ((PrescanProcessor.classify_content stats frames).dominant_frequency_range = "Bass-Heavy" ↔
      ((frames.map fun f => f.frequency_bands.bass).sum / (frames.length : ℚ) >
          (frames.map fun f => f.frequency_bands.mid).sum / (frames.length : ℚ) ∧
        (frames.map fun f => f.frequency_bands.bass).sum / (frames.length : ℚ) >
          (frames.map fun f => f.frequency_bands.treble).sum / (frames.length : ℚ))) ∧
    ((PrescanProcessor.classify_content stats frames).dominant_frequency_range = "Treble-Focused" ↔
      ((frames.map fun f => f.frequency_bands.treble).sum / (frames.length : ℚ) >
          (frames.map fun f => f.frequency_bands.bass).sum / (frames.length : ℚ) ∧
        (frames.map fun f => f.frequency_bands.treble).sum / (frames.length : ℚ) >
          (frames.map fun f => f.frequency_bands.mid).sum / (frames.length : ℚ))) ∧
    ((PrescanProcessor.classify_content stats frames).dominant_frequency_range = "Balanced" ↔
      (¬((frames.map fun f => f.frequency_bands.bass).sum / (frames.length : ℚ) >
          (frames.map fun f => f.frequency_bands.mid).sum / (frames.length : ℚ) ∧
        (frames.map fun f => f.frequency_bands.bass).sum / (frames.length : ℚ) >
          (frames.map fun f => f.frequency_bands.treble).sum / (frames.length : ℚ)) ∧
       ¬((frames.map fun f => f.frequency_bands.treble).sum / (frames.length : ℚ) >
          (frames.map fun f => f.frequency_bands.bass).sum / (frames.length : ℚ) ∧
        (frames.map fun f => f.frequency_bands.treble).sum / (frames.length : ℚ) >
          (frames.map fun f => f.frequency_bands.mid).sum / (frames.length : ℚ)))) := by
  have hd : (PrescanProcessor.classify_content stats frames).dominant_frequency_range =
      (if ((frames.map fun f => f.frequency_bands.bass).sum / (frames.length : ℚ) >
            (frames.map fun f => f.frequency_bands.mid).sum / (frames.length : ℚ) ∧
          (frames.map fun f => f.frequency_bands.bass).sum / (frames.length : ℚ) >
            (frames.map fun f => f.frequency_bands.treble).sum / (frames.length : ℚ))
       then "Bass-Heavy"
       else if ((frames.map fun f => f.frequency_bands.treble).sum / (frames.length : ℚ) >
            (frames.map fun f => f.frequency_bands.bass).sum / (frames.length : ℚ) ∧
          (frames.map fun f => f.frequency_bands.treble).sum / (frames.length : ℚ) >
            (frames.map fun f => f.frequency_bands.mid).sum / (frames.length : ℚ))
       then "Treble-Focused" else "Balanced") := rfl
  rw [hd]
  by_cases h1 : ((frames.map fun f => f.frequency_bands.bass).sum / (frames.length : ℚ) >
      (frames.map fun f => f.frequency_bands.mid).sum / (frames.length : ℚ) ∧
    (frames.map fun f => f.frequency_bands.bass).sum / (frames.length : ℚ) >
      (frames.map fun f => f.frequency_bands.treble).sum / (frames.length : ℚ))
  · rw [if_pos h1]
    refine ⟨by simp [h1], ?_, ?_⟩
    · exact ⟨fun h => absurd h (by decide),
        fun h => absurd h1.2 (not_lt.mpr h.1.le)⟩
    · exact ⟨fun h => absurd h (by decide), fun h => absurd h1 h.1⟩
  · rw [if_neg h1]
    by_cases h2 : ((frames.map fun f => f.frequency_bands.treble).sum / (frames.length : ℚ) >
        (frames.map fun f => f.frequency_bands.bass).sum / (frames.length : ℚ) ∧
      (frames.map fun f => f.frequency_bands.treble).sum / (frames.length : ℚ) >
        (frames.map fun f => f.frequency_bands.mid).sum / (frames.length : ℚ))
    · rw [if_pos h2]
      refine ⟨?_, by simp [h2], ?_⟩
      · exact ⟨fun h => absurd h (by decide), fun h => absurd h h1⟩
      · exact ⟨fun h => absurd h (by decide), fun h => absurd h2 h.2⟩
    · rw [if_neg h2]
      refine ⟨?_, ?_, by simp [h1, h2]⟩
      · exact ⟨fun h => absurd h (by decide), fun h => absurd h h1⟩
      · exact ⟨fun h => absurd h (by decide), fun h => absurd h h2⟩

/-- Witness for C8's amended theorem at `[cexFrame]`. -/
theorem C8_amended_witness :
    ([cexFrame] ≠ []) ∧
    (((PrescanProcessor.classify_content AnalysisStatistics.default
          [cexFrame]).dominant_frequency_range = "Bass-Heavy" ↔
      (([cexFrame].map fun f => f.frequency_bands.bass).sum / (([cexFrame].length : ℕ) : ℚ) >
          ([cexFrame].map fun f => f.frequency_bands.mid).sum / (([cexFrame].length : ℕ) : ℚ) ∧
        ([cexFrame].map fun f => f.frequency_bands.bass).sum / (([cexFrame].length : ℕ) : ℚ) >
          ([cexFrame].map fun f => f.frequency_bands.treble).sum / (([cexFrame].length : ℕ) : ℚ))) ∧
    ((PrescanProcessor.classify_content AnalysisStatistics.default
          [cexFrame]).dominant_frequency_range = "Treble-Focused" ↔
      (([cexFrame].map fun f => f.frequency_bands.treble).sum / (([cexFrame].length : ℕ) : ℚ) >
          ([cexFrame].map fun f => f.frequency_bands.bass).sum / (([cexFrame].length : ℕ) : ℚ) ∧
        ([cexFrame].map fun f => f.frequency_bands.treble).sum / (([cexFrame].length : ℕ) : ℚ) >
          ([cexFrame].map fun f => f.frequency_bands.mid).sum / (([cexFrame].length : ℕ) : ℚ))) ∧
    ((PrescanProcessor.classify_content AnalysisStatistics.default
          [cexFrame]).dominant_frequency_range = "Balanced" ↔
      (¬(([cexFrame].map fun f => f.frequency_bands.bass).sum / (([cexFrame].length : ℕ) : ℚ) >
          ([cexFrame].map fun f => f.frequency_bands.mid).sum / (([cexFrame].length : ℕ) : ℚ) ∧
        ([cexFrame].map fun f => f.frequency_bands.bass).sum / (([cexFrame].length : ℕ) : ℚ) >
          ([cexFrame].map fun f => f.frequency_bands.treble).sum / (([cexFrame].length : ℕ) : ℚ)) ∧
       ¬(([cexFrame].map fun f => f.frequency_bands.treble).sum / (([cexFrame].length : ℕ) : ℚ) >
          ([cexFrame].map fun f => f.frequency_bands.bass).sum / (([cexFrame].length : ℕ) : ℚ) ∧
        ([cexFrame].map fun f => f.frequency_bands.treble).sum / (([cexFrame].length : ℕ) : ℚ) >
          ([cexFrame].map fun f => f.frequency_bands.mid).sum / (([cexFrame].length : ℕ) : ℚ))))) :=
  ⟨by simp, C8_amended AnalysisStatistics.default [cexFrame] (by simp)⟩

/-! ## Claim C5: bad magic / bad version rejection -/

/-- C5: loading bytes whose first four bytes differ from `"ARVV"` fails with
the invalid-format error, and loading bytes with correct magic whose fifth
byte is not `1` fails with the unsupported-version error; both return `error`,
so no (partial) `PrescanData` is produced. -/
theorem C5_magic_version (jc : JsonCodec) (junkFn : ℕ → List ℕ) :
    (∀ bs : List ℕ, 4 ≤ bs.length → bs.take 4 ≠ magicBytes →
      ArvFormat.load_arv jc junkFn bs = .error .invalidMagic) ∧
    (∀ bs : List ℕ, 5 ≤ bs.length → bs.take 4 = magicBytes → bs.getD 4 0 ≠ formatVersion →
      ArvFormat.load_arv jc junkFn bs = .error (.unsupportedVersion (bs.getD 4 0))) := by
  constructor
  · intro bs hlen hmag
    unfold ArvFormat.load_arv
    have h4 : ArvFormat.readExact 4 bs = some (bs.take 4, bs.drop 4) := by
      unfold ArvFormat.readExact; rw [if_pos hlen]
    rw [h4]
    dsimp only
    rw [if_pos hmag]
  · intro bs hlen hmag hver
    unfold ArvFormat.load_arv
    have h4 : ArvFormat.readExact 4 bs = some (bs.take 4, bs.drop 4) := by
      unfold ArvFormat.readExact; rw [if_pos (by omega)]
    rw [h4]
    dsimp only
    rw [if_neg (fun hh => hh hmag)]
    have h1 : ArvFormat.readExact 1 (bs.drop 4) =
        some ((bs.drop 4).take 1, (bs.drop 4).drop 1) := by
      unfold ArvFormat.readExact
      rw [if_pos (by rw [List.length_drop]; omega)]
    rw [h1]
    dsimp only
    have hv : ((bs.drop 4).take 1).getD 0 0 = bs.getD 4 0 := by
      rw [List.getD_eq_getElem?_getD, List.getD_eq_getElem?_getD]
      have ht : ((bs.drop 4).take 1)[0]? = (bs.drop 4)[0]? :=
        List.getElem?_take_of_lt (by omega)
      rw [ht, List.getElem?_drop]
    rw [hv, if_pos hver]

/-- A concrete `FileInfo` used by witnesses. -/
def dummyFileInfo : FileInfo where
  filename := ""
  duration_seconds := 0
  sample_rate := 44100
  total_samples := 0
  frame_rate := 1
  chunk_size := 512

/-- A concrete `JsonCodec` that encodes to the empty byte string and decodes to
fixed values; it satisfies the decode-of-encode round trip at those values. -/
def trivialJsonCodec (fi : FileInfo) (st : AnalysisStatistics) : JsonCodec where
  encFileInfo := fun _ => []
  decFileInfo := fun _ => some fi
  encStats := fun _ => []
  decStats := fun _ => some st

/-- Witness for C5 at concrete byte strings. -/
theorem C5_magic_version_witness :
    (4 ≤ ([0, 0, 0, 0] : List ℕ).length ∧ ([0, 0, 0, 0] : List ℕ).take 4 ≠ magicBytes ∧
      ArvFormat.load_arv (trivialJsonCodec dummyFileInfo AnalysisStatistics.default)
        (fun _ => []) [0, 0, 0, 0] = .error .invalidMagic) ∧
    (5 ≤ ([65, 82, 86, 86, 2] : List ℕ).length ∧
      ([65, 82, 86, 86, 2] : List ℕ).take 4 = magicBytes ∧
      ([65, 82, 86, 86, 2] : List ℕ).getD 4 0 ≠ formatVersion ∧
      ArvFormat.load_arv (trivialJsonCodec dummyFileInfo AnalysisStatistics.default)
        (fun _ => []) [65, 82, 86, 86, 2] =
        .error (.unsupportedVersion (([65, 82, 86, 86, 2] : List ℕ).getD 4 0))) :=
  ⟨⟨by decide, by decide,
      (C5_magic_version (trivialJsonCodec dummyFileInfo AnalysisStatistics.default)
        (fun _ => [])).1 [0, 0, 0, 0] (by decide) (by decide)⟩,
   ⟨by decide, by decide, by decide,
      (C5_magic_version (trivialJsonCodec dummyFileInfo AnalysisStatistics.default)
        (fun _ => [])).2 [65, 82, 86, 86, 2] (by decide) (by decide) (by decide)⟩⟩

/-! ## Claim C6: adaptive warm-up -/

/-- `normalize` outputs agree whenever the effective parameters used by the
call agree. -/
theorem normalize_out_congr (n m : FeatureNormalizer) (raw : RawAudioFeatures)
    (h : (n.after_update raw).effective_parameters =
      (m.after_update raw).effective_parameters) :
    (n.normalize raw).2 = (m.normalize raw).2 := by
  simp only [FeatureNormalizer.normalize]
  rw [h]

/-- During warm-up (at most 100 total samples), an adaptive normalizer with
default parameters produces the same outputs as the fixed-default normalizer. -/
theorem runNormalize_warmup (raws : List RawAudioFeatures) :
    ∀ (n : FeatureNormalizer) (obs : ObservedRanges),
      n.adaptive = true → n.parameters = NormalizationParameters.default →
      n.observed_ranges = some obs → obs.sample_count + raws.length ≤ 100 →
      FeatureNormalizer.runNormalize n raws =
        FeatureNormalizer.runNormalize FeatureNormalizer.new raws := by
  induction raws with
  | nil => intro n obs _ _ _ _; rfl
  | cons r rs ih =>
    intro n obs ha hp ho hc
    have hstate : (n.normalize r).1 = n.update_observed_ranges r := by
      show n.after_update r = _
      rw [FeatureNormalizer.after_update, ha]
      simp
    have hobs' : (n.update_observed_ranges r).observed_ranges = some
        { sub_bass_max := max obs.sub_bass_max r.sub_bass
          bass_max := max obs.bass_max r.bass
          mid_max := max obs.mid_max r.mid
          treble_max := max obs.treble_max r.treble
          presence_max := max obs.presence_max r.presence
          spectral_centroid_max := max obs.spectral_centroid_max r.spectral_centroid
          spectral_rolloff_max := max obs.spectral_rolloff_max r.spectral_rolloff
          spectral_flux_max := max obs.spectral_flux_max r.spectral_flux
          zero_crossing_rate_max := max obs.zero_crossing_rate_max r.zero_crossing_rate
          onset_strength_max := max obs.onset_strength_max r.onset_strength
          beat_strength_max := max obs.beat_strength_max r.beat_strength
          volume_max := max obs.volume_max r.volume
          dynamic_range_max := max obs.dynamic_range_max r.dynamic_range
          pitch_confidence_max := max obs.pitch_confidence_max r.pitch_confidence
          sample_count := obs.sample_count + 1 } := by
      rw [FeatureNormalizer.update_observed_ranges, ho]
    have hparams : (n.update_observed_ranges r).parameters = n.parameters := by
      rw [FeatureNormalizer.update_observed_ranges, ho]
    have hadapt : (n.update_observed_ranges r).adaptive = n.adaptive := by
      rw [FeatureNormalizer.update_observed_ranges, ho]
    have heff : (n.update_observed_ranges r).effective_parameters =
        NormalizationParameters.default := by
      rw [FeatureNormalizer.effective_parameters, hobs']
      dsimp only
      rw [if_neg (by simp at hc; omega)]
      rw [hparams, hp]
    show (n.normalize r).2 :: FeatureNormalizer.runNormalize (n.normalize r).1 rs =
      (FeatureNormalizer.new.normalize r).2 ::
        FeatureNormalizer.runNormalize (FeatureNormalizer.new.normalize r).1 rs
    have hhead : (n.normalize r).2 = (FeatureNormalizer.new.normalize r).2 := by
      apply normalize_out_congr
      have h1 : n.after_update r = n.update_observed_ranges r := by
        rw [FeatureNormalizer.after_update, ha]; simp
      have h2 : FeatureNormalizer.new.after_update r = FeatureNormalizer.new := rfl
      rw [h1, h2, heff]
      rfl
    have htail : FeatureNormalizer.runNormalize (n.normalize r).1 rs =
        FeatureNormalizer.runNormalize FeatureNormalizer.new rs := by
      rw [hstate]
      exact ih (n.update_observed_ranges r) _ (by rw [hadapt, ha]) (by rw [hparams, hp])
        hobs' (by simp at hc ⊢; omega)
    have hnewstate : (FeatureNormalizer.new.normalize r).1 = FeatureNormalizer.new := rfl
    rw [hhead, htail, hnewstate]

/-- C6: (a) any sequence of fewer than 100 `normalize` calls on a fresh
adaptive normalizer produces output identical to the fixed-default normalizer
on the same inputs; (b) once the observed sample counter is past the
100-sample warm-up, the effective bound of every field is the running observed
maximum times 1.2, except `spectral_centroid`, `spectral_rolloff` and
`pitch_confidence`, whose observed maxima are scaled by 1.1 (BPM bounds stay
at the configured parameters). -/
theorem C6_adaptive_warmup :
    (∀ raws : List RawAudioFeatures, raws.length < 100 →
      FeatureNormalizer.runNormalize FeatureNormalizer.new_adaptive raws =
        FeatureNormalizer.runNormalize FeatureNormalizer.new raws) ∧
    (∀ (n : FeatureNormalizer) (obs : ObservedRanges),
      n.observed_ranges = some obs → 100 < obs.sample_count →
      n.effective_parameters =
        { sub_bass_max := obs.sub_bass_max * 1.2
          bass_max := obs.bass_max * 1.2
          mid_max := obs.mid_max * 1.2
          treble_max := obs.treble_max * 1.2
          presence_max := obs.presence_max * 1.2
          spectral_centroid_max := obs.spectral_centroid_max * 1.1
          spectral_rolloff_max := obs.spectral_rolloff_max * 1.1
          spectral_flux_max := obs.spectral_flux_max * 1.2
          zero_crossing_rate_max := obs.zero_crossing_rate_max * 1.2
          onset_strength_max := obs.onset_strength_max * 1.2
          beat_strength_max := obs.beat_strength_max * 1.2
          volume_max := obs.volume_max * 1.2
          dynamic_range_max := obs.dynamic_range_max * 1.2
          pitch_confidence_max := obs.pitch_confidence_max * 1.1
          bpm_min := n.parameters.bpm_min
          bpm_max := n.parameters.bpm_max }) := by
  constructor
  · intro raws hlen
    exact runNormalize_warmup raws FeatureNormalizer.new_adaptive ObservedRanges.default
      rfl rfl rfl (by simp [ObservedRanges.default]; omega)
  · intro n obs ho hc
    rw [FeatureNormalizer.effective_parameters, ho]
    dsimp only
    rw [if_pos hc]

/-- Observed ranges whose counter is just past warm-up. -/
def obsPast : ObservedRanges := { ObservedRanges.default with sample_count := 101 }

/-- An adaptive normalizer state past warm-up. -/
def nPast : FeatureNormalizer where
  parameters := NormalizationParameters.default
  adaptive := true
  observed_ranges := some obsPast

/-- Witness for C6 at a one-element input list and a past-warm-up state. -/
theorem C6_adaptive_warmup_witness :
    (([rawOne].length < 100 ∧
      FeatureNormalizer.runNormalize FeatureNormalizer.new_adaptive [rawOne] =
        FeatureNormalizer.runNormalize FeatureNormalizer.new [rawOne])) ∧
    (nPast.observed_ranges = some obsPast ∧ 100 < obsPast.sample_count ∧
      nPast.effective_parameters =
        { sub_bass_max := obsPast.sub_bass_max * 1.2
          bass_max := obsPast.bass_max * 1.2
          mid_max := obsPast.mid_max * 1.2
          treble_max := obsPast.treble_max * 1.2
          presence_max := obsPast.presence_max * 1.2
          spectral_centroid_max := obsPast.spectral_centroid_max * 1.1
          spectral_rolloff_max := obsPast.spectral_rolloff_max * 1.1
          spectral_flux_max := obsPast.spectral_flux_max * 1.2
          zero_crossing_rate_max := obsPast.zero_crossing_rate_max * 1.2
          onset_strength_max := obsPast.onset_strength_max * 1.2
          beat_strength_max := obsPast.beat_strength_max * 1.2
          volume_max := obsPast.volume_max * 1.2
          dynamic_range_max := obsPast.dynamic_range_max * 1.2
          pitch_confidence_max := obsPast.pitch_confidence_max * 1.1
          bpm_min := nPast.parameters.bpm_min
          bpm_max := nPast.parameters.bpm_max }) :=
  ⟨⟨by decide, C6_adaptive_warmup.1 [rawOne] (by decide)⟩,
   ⟨rfl, by decide, C6_adaptive_warmup.2 nPast obsPast rfl (by decide)⟩⟩

/-! ## Claim C4: synchronized lookup -/

namespace SynchronizedPlayback

/-- If the frame at the cursor has started (`ts k ≤ t`) and `i ≥ k` is the
window containing `t`, the forward scan returns frame `i` directly. -/
theorem scanForward_hits (frames : List PrescanFrame) (t : ℚ)
    (hmono : ∀ i j : Fin frames.length, (i : ℕ) < (j : ℕ) →
      (frames.get i).timestamp < (frames.get j).timestamp)
    (i : ℕ) (hi : i < frames.length)
    (hle : (frames.get ⟨i, hi⟩).timestamp ≤ t)
    (hnext : ∀ h1 : i + 1 < frames.length, t < (frames.get ⟨i + 1, h1⟩).timestamp) :
    ∀ k : ℕ, k ≤ i → scanForward frames t k = (true, i) := by
  suffices H : ∀ n k, k ≤ i → i - k = n → scanForward frames t k = (true, i) by
    intro k hk
    exact H (i - k) k hk rfl
  intro n
  induction n with
  | zero =>
    intro k hk h0
    have hki : k = i := by omega
    subst hki
    unfold scanForward
    rw [dif_pos hi, if_pos hle]
    by_cases h1 : k + 1 < frames.length
    · rw [dif_pos h1, if_pos (hnext h1)]
    · rw [dif_neg h1]
  | succ n ihn =>
    intro k hk hkn
    have hklt : k < i := by omega
    have hklen : k < frames.length := by omega
    unfold scanForward
    rw [dif_pos hklen]
    have hts : (frames.get ⟨k, hklen⟩).timestamp ≤ t :=
      le_of_lt (lt_of_lt_of_le (hmono ⟨k, hklen⟩ ⟨i, hi⟩ hklt) hle)
    rw [if_pos hts]
    have hk1 : k + 1 < frames.length := by omega
    rw [dif_pos hk1]
    have hnotgt : ¬ (t < (frames.get ⟨k + 1, hk1⟩).timestamp) := by
      rcases eq_or_lt_of_le (Nat.succ_le_of_lt hklt) with he | hl
      · subst he
        exact not_lt.mpr hle
      · exact not_lt.mpr
          (le_of_lt (lt_of_lt_of_le (hmono ⟨k + 1, hk1⟩ ⟨i, hi⟩ hl) hle))
    rw [if_neg hnotgt]
    exact ihn (k + 1) (by omega) (by omega)

/-- If the frame at the cursor has not started yet, the forward scan breaks
immediately. -/
theorem scanForward_break (frames : List PrescanFrame) (t : ℚ) (k : ℕ)
    (hk : k < frames.length) (hgt : t < (frames.get ⟨k, hk⟩).timestamp) :
    scanForward frames t k = (false, k) := by
  unfold scanForward
  rw [dif_pos hk, if_neg (not_le.mpr hgt)]

/-- Forward scan on an out-of-range cursor breaks immediately. -/
theorem scanForward_oob (frames : List PrescanFrame) (t : ℚ) (k : ℕ)
    (hk : ¬ k < frames.length) : scanForward frames t k = (false, k) := by
  unfold scanForward
  rw [dif_neg hk]

/-- If the frame at the cursor has started, the forward scan returns a frame
directly (it never falls through to the backward correction). -/
theorem scanForward_true_of_le (frames : List PrescanFrame) (t : ℚ) :
    ∀ n k, frames.length - k ≤ n → ∀ hk : k < frames.length,
      (frames.get ⟨k, hk⟩).timestamp ≤ t → (scanForward frames t k).1 = true := by
  intro n
  induction n with
  | zero => intro k hn hk _; omega
  | succ n ihn =>
    intro k hn hk hle
    unfold scanForward
    rw [dif_pos hk, if_pos hle]
    by_cases h1 : k + 1 < frames.length
    · rw [dif_pos h1]
      by_cases h2 : t < (frames.get ⟨k + 1, h1⟩).timestamp
      · rw [if_pos h2]
      · rw [if_neg h2]
        exact ihn (k + 1) (by omega) h1 (not_lt.mp h2)
    · rw [dif_neg h1]

/-- A `true` result of the forward scan carries an in-range index. -/
theorem scanForward_true_lt (frames : List PrescanFrame) (t : ℚ) :
    ∀ n k, frames.length - k ≤ n → (scanForward frames t k).1 = true →
      (scanForward frames t k).2 < frames.length := by
  intro n
  induction n with
  | zero =>
    intro k hn htrue
    have hk : ¬ k < frames.length := by omega
    rw [scanForward_oob frames t k hk] at htrue
    exact absurd htrue (by simp)
  | succ n ihn =>
    intro k hn htrue
    by_cases hk : k < frames.length
    · rw [scanForward.eq_def] at htrue ⊢
      rw [dif_pos hk] at htrue ⊢
      by_cases hle : (frames.get ⟨k, hk⟩).timestamp ≤ t
      · rw [if_pos hle] at htrue ⊢
        by_cases h1 : k + 1 < frames.length
        · rw [dif_pos h1] at htrue ⊢
          by_cases h2 : t < (frames.get ⟨k + 1, h1⟩).timestamp
          · rw [if_pos h2] at htrue ⊢
            exact hk
          · rw [if_neg h2] at htrue ⊢
            exact ihn (k + 1) (by omega) htrue
        · rw [dif_neg h1] at htrue ⊢
          exact hk
      · rw [if_neg hle] at htrue
        exact absurd htrue (by simp)
    · rw [scanForward_oob frames t k hk] at htrue
      exact absurd htrue (by simp)

/-- The backward correction stops at the greatest index `i ≤ k` whose frame
has started. -/
theorem scanBack_finds (frames : List PrescanFrame) (t : ℚ) :
    ∀ (k : ℕ), k < frames.length → ∀ (i : ℕ) (hi : i < frames.length), i ≤ k →
      (frames.get ⟨i, hi⟩).timestamp ≤ t →
      (∀ (j : ℕ) (hj : j < frames.length), i < j → j ≤ k →
        t < (frames.get ⟨j, hj⟩).timestamp) →
      scanBack frames t k = i := by
  intro k
  induction k with
  | zero =>
    intro _ i _ hik _ _
    interval_cases i
    rfl
  | succ k ih =>
    intro hk i hi hik hle habove
    unfold scanBack
    rw [List.getElem?_eq_getElem hk]
    dsimp only
    split
    next hgt =>
      rcases eq_or_lt_of_le hik with he | hl
      · exfalso
        subst he
        exact absurd hgt (not_lt.mpr hle)
      · exact ih (by omega) i hi (by omega) hle
          (fun j hj h1 h2 => habove j hj h1 (by omega))
    next hng =>
      rcases eq_or_lt_of_le hik with he | hl
      · omega
      · exfalso
        exact hng (habove (k + 1) hk (by omega) le_rfl)

/-- If no frame up to the cursor has started, the backward correction walks
back to index 0. -/
theorem scanBack_zero (frames : List PrescanFrame) (t : ℚ) :
    ∀ (k : ℕ), k < frames.length →
      (∀ (j : ℕ) (hj : j < frames.length), j ≤ k →
        t < (frames.get ⟨j, hj⟩).timestamp) →
      scanBack frames t k = 0 := by
  intro k
  induction k with
  | zero => intro _ _; rfl
  | succ k ih =>
    intro hk hall
    unfold scanBack
    rw [List.getElem?_eq_getElem hk]
    dsimp only
    split
    next =>
      exact ih (by omega) (fun j hj hjk => hall j hj (by omega))
    next hng =>
      exact absurd (hall (k + 1) hk le_rfl) hng

/-- The backward correction never moves the cursor forward. -/
theorem scanBack_le (frames : List PrescanFrame) (t : ℚ) :
    ∀ k, scanBack frames t k ≤ k := by
  intro k
  induction k with
  | zero => exact le_rfl
  | succ k ih =>
    unfold scanBack
    cases h : frames[k + 1]? with
    | none => exact le_rfl
    | some f =>
      dsimp only
      split
      next => exact le_trans ih (by omega)
      next => exact le_rfl

end SynchronizedPlayback

set_option maxHeartbeats 800000 in
/-- C4: for strictly increasing timestamps and any reachable cursor,
`get_synchronized_frame t` returns frame `i` when `t ∈ [tᵢ, tᵢ₊₁)`, frame 0
when `t < t₀`, the last frame when `t ≥ tₙ`, and `none` exactly when the frame
sequence is empty. -/
theorem C4_synchronized_lookup (frames : List PrescanFrame) (cursor : ℕ) (t : ℚ)
    (hmono : ∀ i j : Fin frames.length, (i : ℕ) < (j : ℕ) →
      (frames.get i).timestamp < (frames.get j).timestamp)
    (hcur : cursor < frames.length ∨ cursor = 0) :
    (∀ (i : ℕ) (hi : i < frames.length) (hi1 : i + 1 < frames.length),
      (frames.get ⟨i, hi⟩).timestamp ≤ t → t < (frames.get ⟨i + 1, hi1⟩).timestamp →
      (SynchronizedPlayback.get_synchronized_frame frames cursor t).2 =
        some (frames.get ⟨i, hi⟩)) ∧
    (∀ h0 : 0 < frames.length, t < (frames.get ⟨0, h0⟩).timestamp →
      (SynchronizedPlayback.get_synchronized_frame frames cursor t).2 =
        some (frames.get ⟨0, h0⟩)) ∧
    (∀ h0 : 0 < frames.length,
      (frames.get ⟨frames.length - 1, by omega⟩).timestamp ≤ t →
      (SynchronizedPlayback.get_synchronized_frame frames cursor t).2 =
        some (frames.get ⟨frames.length - 1, by omega⟩)) ∧
    ((SynchronizedPlayback.get_synchronized_frame frames cursor t).2 = none ↔
      frames = []) := by
  refine ⟨?_, ?_, ?_, ?_⟩
  · -- t in [t_i, t_{i+1})
    intro i hi hi1 hle hlt
    have hcl : cursor < frames.length := by
      rcases hcur with h | h
      · exact h
      · omega
    unfold SynchronizedPlayback.get_synchronized_frame
    by_cases hc : (frames.get ⟨cursor, hcl⟩).timestamp ≤ t
    · have hki : cursor ≤ i := by
        by_contra hgt
        push_neg at hgt
        have hcontra : t < (frames.get ⟨cursor, hcl⟩).timestamp := by
          rcases eq_or_lt_of_le (Nat.succ_le_of_lt hgt) with he | hl2
          · subst he
            exact hlt
          · exact lt_trans hlt (hmono ⟨i + 1, hi1⟩ ⟨cursor, hcl⟩ hl2)
        exact absurd hc (not_le.mpr hcontra)
      rw [SynchronizedPlayback.scanForward_hits frames t hmono i hi hle
        (fun _ => hlt) cursor hki]
      dsimp only
      rw [List.getElem?_eq_getElem hi]
      rfl
    · push_neg at hc
      have hik : i < cursor := by
        by_contra hle2
        push_neg at hle2
        have hcontra : (frames.get ⟨cursor, hcl⟩).timestamp ≤ t := by
          rcases eq_or_lt_of_le hle2 with he | hl2
          · subst he
            exact hle
          · exact le_of_lt (lt_of_lt_of_le (hmono ⟨cursor, hcl⟩ ⟨i, hi⟩ hl2) hle)
        exact absurd hcontra (not_le.mpr hc)
      rw [SynchronizedPlayback.scanForward_break frames t cursor hcl hc]
      dsimp only
      rw [SynchronizedPlayback.scanBack_finds frames t cursor hcl i hi (le_of_lt hik) hle
        (fun j hj h1 _ => by
          rcases eq_or_lt_of_le (Nat.succ_le_of_lt h1) with he | hl2
          · subst he
            exact hlt
          · exact lt_trans hlt (hmono ⟨i + 1, hi1⟩ ⟨j, hj⟩ hl2))]
      rw [List.getElem?_eq_getElem hi]
      rfl
  · -- t before the first frame
    intro h0 hlt0
    have hcl : cursor < frames.length := by
      rcases hcur with h | h
      · exact h
      · omega
    have hct : t < (frames.get ⟨cursor, hcl⟩).timestamp := by
      rcases Nat.eq_zero_or_pos cursor with he | hp
      · subst he
        exact hlt0
      · exact lt_trans hlt0 (hmono ⟨0, h0⟩ ⟨cursor, hcl⟩ hp)
    unfold SynchronizedPlayback.get_synchronized_frame
    rw [SynchronizedPlayback.scanForward_break frames t cursor hcl hct]
    dsimp only
    rw [SynchronizedPlayback.scanBack_zero frames t cursor hcl (fun j hj _ => by
      rcases Nat.eq_zero_or_pos j with he | hp
      · subst he
        exact hlt0
      · exact lt_trans hlt0 (hmono ⟨0, h0⟩ ⟨j, hj⟩ hp))]
    rw [List.getElem?_eq_getElem h0]
    rfl
  · -- t at or past the last frame
    intro h0 hlast
    have hcl : cursor < frames.length := by
      rcases hcur with h | h
      · exact h
      · omega
    unfold SynchronizedPlayback.get_synchronized_frame
    rw [SynchronizedPlayback.scanForward_hits frames t hmono (frames.length - 1)
      (by omega) hlast (fun h1 => absurd h1 (by omega)) cursor (by omega)]
    dsimp only
    rw [List.getElem?_eq_getElem (show frames.length - 1 < frames.length by omega)]
    rfl
  · -- none iff empty
    constructor
    · intro hnone
      by_contra hne
      have h0 : 0 < frames.length := List.length_pos.mpr hne
      have hcl : cursor < frames.length := by
        rcases hcur with h | h
        · exact h
        · omega
      by_cases hc : (frames.get ⟨cursor, hcl⟩).timestamp ≤ t
      · have htrue := SynchronizedPlayback.scanForward_true_of_le frames t
          (frames.length - cursor) cursor le_rfl hcl hc
        have hlt2 := SynchronizedPlayback.scanForward_true_lt frames t
          (frames.length - cursor) cursor le_rfl htrue
        unfold SynchronizedPlayback.get_synchronized_frame at hnone
        rcases hsf : SynchronizedPlayback.scanForward frames t cursor with ⟨b, k⟩
        rw [hsf] at hnone htrue hlt2
        dsimp at htrue hlt2
        subst htrue
        dsimp at hnone
        rw [List.getElem?_eq_getElem hlt2] at hnone
        simp at hnone
      · push_neg at hc
        unfold SynchronizedPlayback.get_synchronized_frame at hnone
        rw [SynchronizedPlayback.scanForward_break frames t cursor hcl hc] at hnone
        dsimp at hnone
        have hle2 := SynchronizedPlayback.scanBack_le frames t cursor
        have hlt3 : SynchronizedPlayback.scanBack frames t cursor < frames.length := by
          omega
        rw [List.getElem?_eq_getElem hlt3] at hnone
        simp at hnone
    · intro he
      subst he
      have hc0 : cursor = 0 := by
        rcases hcur with h | h
        · simp at h
        · exact h
      subst hc0
      unfold SynchronizedPlayback.get_synchronized_frame
      rw [SynchronizedPlayback.scanForward_oob _ _ _ (by simp)]
      rfl

/-- Two concrete frames with timestamps `0` and `1`. -/
def wFrame0 : PrescanFrame := cexFrame

/-- Second witness frame, timestamp `1`. -/
def wFrame1 : PrescanFrame := { cexFrame with timestamp := 1 }

/-- Witness for C4 on a two-frame sequence with cursor 0 and `t = 1/2`. -/
theorem C4_synchronized_lookup_witness :
    ((∀ i j : Fin ([wFrame0, wFrame1].length), (i : ℕ) < (j : ℕ) →
        ([wFrame0, wFrame1].get i).timestamp < ([wFrame0, wFrame1].get j).timestamp) ∧
      ((0 : ℕ) < [wFrame0, wFrame1].length ∨ (0 : ℕ) = 0)) ∧
    ((∀ (i : ℕ) (hi : i < [wFrame0, wFrame1].length)
        (hi1 : i + 1 < [wFrame0, wFrame1].length),
      ([wFrame0, wFrame1].get ⟨i, hi⟩).timestamp ≤ (1 / 2 : ℚ) →
      (1 / 2 : ℚ) < ([wFrame0, wFrame1].get ⟨i + 1, hi1⟩).timestamp →
      (SynchronizedPlayback.get_synchronized_frame [wFrame0, wFrame1] 0 (1 / 2)).2 =
        some ([wFrame0, wFrame1].get ⟨i, hi⟩)) ∧
    (∀ h0 : 0 < [wFrame0, wFrame1].length,
      (1 / 2 : ℚ) < ([wFrame0, wFrame1].get ⟨0, h0⟩).timestamp →
      (SynchronizedPlayback.get_synchronized_frame [wFrame0, wFrame1] 0 (1 / 2)).2 =
        some ([wFrame0, wFrame1].get ⟨0, h0⟩)) ∧
    (∀ h0 : 0 < [wFrame0, wFrame1].length,
      ([wFrame0, wFrame1].get ⟨[wFrame0, wFrame1].length - 1, by omega⟩).timestamp ≤ (1 / 2 : ℚ) →
      (SynchronizedPlayback.get_synchronized_frame [wFrame0, wFrame1] 0 (1 / 2)).2 =
        some ([wFrame0, wFrame1].get ⟨[wFrame0, wFrame1].length - 1, by omega⟩)) ∧
    ((SynchronizedPlayback.get_synchronized_frame [wFrame0, wFrame1] 0 (1 / 2)).2 = none ↔
      [wFrame0, wFrame1] = [])) :=
  ⟨⟨by
      intro i j hij
      fin_cases i <;> fin_cases j <;> simp_all [wFrame0, wFrame1, cexFrame] <;> norm_num,
    Or.inr rfl⟩,
   C4_synchronized_lookup [wFrame0, wFrame1] 0 (1 / 2)
     (by
       intro i j hij
       fin_cases i <;> fin_cases j <;> simp_all [wFrame0, wFrame1, cexFrame] <;> norm_num)
     (Or.inr rfl)⟩

/-! ## Claim C7: beat refractory period -/

namespace BeatDetector

/-- One `detect_beat` call: the simulated clock advances by one window, the
configuration fields are untouched, a reported beat implies the refractory gap
from the previous `last_beat_time` and stamps the new time, and a silent call
leaves `last_beat_time` unchanged. -/
theorem detect_beat_step (sqrtFn : ℚ → ℚ) (d : BeatDetector) (b : FrequencyBands) :
    (detect_beat sqrtFn d b).1.time_counter = d.time_counter + 1024 / d.sample_rate ∧
    (detect_beat sqrtFn d b).1.sample_rate = d.sample_rate ∧
    (detect_beat sqrtFn d b).1.min_beat_interval = d.min_beat_interval ∧
    ((detect_beat sqrtFn d b).2.1 = true →
      (d.min_beat_interval < d.time_counter + 1024 / d.sample_rate - d.last_beat_time ∧
       (detect_beat sqrtFn d b).1.last_beat_time =
         d.time_counter + 1024 / d.sample_rate)) ∧
    ((detect_beat sqrtFn d b).2.1 = false →
      (detect_beat sqrtFn d b).1.last_beat_time = d.last_beat_time) := by
  unfold detect_beat
  dsimp only
  split
  next _ =>
    exact ⟨rfl, rfl, rfl, fun h => by simp at h, fun _ => rfl⟩
  next _ =>
    refine ⟨rfl, rfl, rfl, ?_, ?_⟩
    · intro h
      dsimp only at h
      constructor
      · have hcan := (Bool.and_eq_true _ _).mp h |>.1
        exact of_decide_eq_true hcan
      · dsimp only
        rw [if_pos h]
    · intro h
      dsimp only at h
      dsimp only
      rw [if_neg (by simp [h])]

/-- Length of the output list of a run. -/
theorem runDetect_length (sqrtFn : ℚ → ℚ) :
    ∀ (inputs : List FrequencyBands) (d : BeatDetector),
      (runDetect sqrtFn d inputs).length = inputs.length := by
  intro inputs
  induction inputs with
  | nil => intro d; rfl
  | cons b bs ih =>
    intro d
    simp only [runDetect, List.length_cons]
    rw [ih]

/-- The `k`-th output of a run is `detect_beat` applied to the state reached
after the first `k` inputs. -/
theorem runDetect_get (sqrtFn : ℚ → ℚ) :
    ∀ (inputs : List FrequencyBands) (d : BeatDetector) (k : ℕ) (hk : k < inputs.length),
      (runDetect sqrtFn d inputs)[k]? =
        some ((detect_beat sqrtFn (stateAfter sqrtFn d (inputs.take k))
          (inputs.get ⟨k, hk⟩)).2) := by
  intro inputs
  induction inputs with
  | nil => intro d k hk; exact absurd hk (by simp)
  | cons b bs ih =>
    intro d k hk
    cases k with
    | zero =>
      simp [runDetect, stateAfter]
    | succ k =>
      have hk2 : k < bs.length := by
        simp at hk
        omega
      simp only [runDetect, List.getElem?_cons_succ, List.take_succ_cons,
        List.get_cons_succ]
      rw [ih (detect_beat sqrtFn d b).1 k hk2]
      rfl

/-- Clock, sample rate and refractory configuration along a run. -/
theorem stateAfter_props (sqrtFn : ℚ → ℚ) :
    ∀ (inputs : List FrequencyBands) (d : BeatDetector),
      (stateAfter sqrtFn d inputs).time_counter =
        d.time_counter + (inputs.length : ℚ) * (1024 / d.sample_rate) ∧
      (stateAfter sqrtFn d inputs).sample_rate = d.sample_rate ∧
      (stateAfter sqrtFn d inputs).min_beat_interval = d.min_beat_interval := by
  intro inputs
  induction inputs with
  | nil => intro d; simp [stateAfter]
  | cons b bs ih =>
    intro d
    have hstep := detect_beat_step sqrtFn d b
    have hih := ih (stepDetect sqrtFn d b)
    have hsa : stateAfter sqrtFn d (b :: bs) =
        stateAfter sqrtFn (stepDetect sqrtFn d b) bs := rfl
    rw [hsa]
    simp only [stepDetect] at hih ⊢
    refine ⟨?_, ?_, ?_⟩
    · rw [hih.1, hstep.1, hstep.2.1]
      push_cast [List.length_cons]
      ring
    · rw [hih.2.1]
      exact hstep.2.1
    · rw [hih.2.2]
      exact hstep.2.2.1

/-- `last_beat_time` never decreases along a run (given a non-negative
refractory interval). -/
theorem stateAfter_last_mono (sqrtFn : ℚ → ℚ) :
    ∀ (inputs : List FrequencyBands) (d : BeatDetector),
      0 ≤ d.min_beat_interval →
      d.last_beat_time ≤ (stateAfter sqrtFn d inputs).last_beat_time := by
  intro inputs
  induction inputs with
  | nil => intro d _; exact le_rfl
  | cons b bs ih =>
    intro d hmin
    have hstep := detect_beat_step sqrtFn d b
    have hone : d.last_beat_time ≤ (stepDetect sqrtFn d b).last_beat_time := by
      cases hb : (detect_beat sqrtFn d b).2.1 with
      | false =>
        have he : (stepDetect sqrtFn d b).last_beat_time = d.last_beat_time :=
          hstep.2.2.2.2 hb
        rw [he]
      | true =>
        have hf := hstep.2.2.2.1 hb
        have he : (stepDetect sqrtFn d b).last_beat_time =
            d.time_counter + 1024 / d.sample_rate := hf.2
        rw [he]
        nlinarith [hf.1, hmin]
    calc d.last_beat_time ≤ (stepDetect sqrtFn d b).last_beat_time := hone
      _ ≤ (stateAfter sqrtFn (stepDetect sqrtFn d b) bs).last_beat_time :=
        ih (stepDetect sqrtFn d b)
          (by simp only [stepDetect]; rw [hstep.2.2.1]; exact hmin)

/-- `stateAfter` over a prefix extended by one element. -/
theorem stateAfter_take_succ (sqrtFn : ℚ → ℚ) (inputs : List FrequencyBands)
    (d : BeatDetector) (k : ℕ) (hk : k < inputs.length) :
    stateAfter sqrtFn d (inputs.take (k + 1)) =
      stepDetect sqrtFn (stateAfter sqrtFn d (inputs.take k)) (inputs.get ⟨k, hk⟩) := by
  rw [List.take_succ]
  rw [List.getElem?_eq_getElem hk]
  unfold stateAfter
  rw [List.foldl_append]
  rfl

end BeatDetector

/-- C7: in any run of `detect_beat` calls from a fresh detector (each call
advancing the simulated clock by one window of `1024 / sample_rate` seconds),
two calls that both report a beat are separated by more than
`min_beat_interval = 0.3` seconds of simulated time; this holds for every
value of the abstracted `sqrt`. -/
theorem C7_beat_refractory (rate : ℚ) (sqrtFn : ℚ → ℚ) (inputs : List FrequencyBands)
    (i j : ℕ) (hij : i < j)
    (hi : ((BeatDetector.runDetect sqrtFn (BeatDetector.new rate) inputs)[i]?).map
      Prod.fst = some true)
    (hj : ((BeatDetector.runDetect sqrtFn (BeatDetector.new rate) inputs)[j]?).map
      Prod.fst = some true) :
    ((j : ℚ) + 1) * (1024 / rate) - ((i : ℚ) + 1) * (1024 / rate) > 0.3 := by
  have hleni : i < inputs.length := by
    by_contra hx
    push_neg at hx
    rw [List.getElem?_eq_none (by rw [BeatDetector.runDetect_length]; exact hx)] at hi
    simp at hi
  have hlenj : j < inputs.length := by
    by_contra hx
    push_neg at hx
    rw [List.getElem?_eq_none (by rw [BeatDetector.runDetect_length]; exact hx)] at hj
    simp at hj
  rw [BeatDetector.runDetect_get sqrtFn inputs (BeatDetector.new rate) i hleni] at hi
  rw [BeatDetector.runDetect_get sqrtFn inputs (BeatDetector.new rate) j hlenj] at hj
  simp only [Option.map_some', Option.some.injEq] at hi hj
  have hpi := BeatDetector.stateAfter_props sqrtFn (inputs.take i) (BeatDetector.new rate)
  have hpj := BeatDetector.stateAfter_props sqrtFn (inputs.take j) (BeatDetector.new rate)
  have hpi1 := BeatDetector.stateAfter_props sqrtFn (inputs.take (i + 1))
    (BeatDetector.new rate)
  have hfi := (BeatDetector.detect_beat_step sqrtFn
    (BeatDetector.stateAfter sqrtFn (BeatDetector.new rate) (inputs.take i))
    (inputs.get ⟨i, hleni⟩)).2.2.2.1 hi
  have hfj := (BeatDetector.detect_beat_step sqrtFn
    (BeatDetector.stateAfter sqrtFn (BeatDetector.new rate) (inputs.take j))
    (inputs.get ⟨j, hlenj⟩)).2.2.2.1 hj
  have hd0t : (BeatDetector.new rate).time_counter = 0 := rfl
  have hd0r : (BeatDetector.new rate).sample_rate = rate := rfl
  have hd0m : (BeatDetector.new rate).min_beat_interval = 0.3 := rfl
  have hti : ((inputs.take i).length : ℚ) = (i : ℚ) := by
    rw [List.length_take]
    norm_cast
    omega
  have htj : ((inputs.take j).length : ℚ) = (j : ℚ) := by
    rw [List.length_take]
    norm_cast
    omega
  have hlast_i1 : (BeatDetector.stateAfter sqrtFn (BeatDetector.new rate)
      (inputs.take (i + 1))).last_beat_time = (i : ℚ) * (1024 / rate) + 1024 / rate := by
    rw [BeatDetector.stateAfter_take_succ sqrtFn inputs (BeatDetector.new rate) i hleni]
    simp only [BeatDetector.stepDetect]
    rw [hfi.2, hpi.1, hpi.2.1, hd0t, hd0r, hti]
    ring
  have hjsplit : inputs.take j = inputs.take (i + 1) ++
      ((inputs.drop (i + 1)).take (j - (i + 1))) := by
    conv_lhs => rw [show j = (i + 1) + (j - (i + 1)) by omega]
    rw [List.take_add]
  have hmono2 : (BeatDetector.stateAfter sqrtFn (BeatDetector.new rate)
        (inputs.take (i + 1))).last_beat_time ≤
      (BeatDetector.stateAfter sqrtFn (BeatDetector.new rate)
        (inputs.take j)).last_beat_time := by
    conv_rhs => rw [hjsplit]
    have happ : BeatDetector.stateAfter sqrtFn (BeatDetector.new rate)
        (inputs.take (i + 1) ++ ((inputs.drop (i + 1)).take (j - (i + 1)))) =
        BeatDetector.stateAfter sqrtFn
          (BeatDetector.stateAfter sqrtFn (BeatDetector.new rate) (inputs.take (i + 1)))
          ((inputs.drop (i + 1)).take (j - (i + 1))) := List.foldl_append _ _ _ _
    rw [happ]
    apply BeatDetector.stateAfter_last_mono
    rw [hpi1.2.2, hd0m]
    norm_num
  have h1 := hfj.1
  rw [hpj.1, hpj.2.1, hpj.2.2, hd0t, hd0r, hd0m, htj] at h1
  have h2 : (i : ℚ) * (1024 / rate) + 1024 / rate ≤
      (BeatDetector.stateAfter sqrtFn (BeatDetector.new rate)
        (inputs.take j)).last_beat_time := by
    rw [← hlast_i1]
    exact hmono2
  have hgoal : ((j : ℚ) + 1) * (1024 / rate) - ((i : ℚ) + 1) * (1024 / rate) =
      (0 + (j : ℚ) * (1024 / rate) + 1024 / rate) -
        ((i : ℚ) * (1024 / rate) + 1024 / rate) := by ring
  rw [hgoal]
  linarith [h1, h2]

/-- A band record carrying only bass energy. -/
def beatBands (x : ℚ) : FrequencyBands where
  sub_bass := 0
  bass := x
  mid := 0
  treble := 0
  presence := 0

/-- 17 windows at 20480 Hz (window duration 1/20 s): silence, a burst at index
9 (simulated time 0.5 s), silence, a burst at index 16 (time 0.85 s). -/
def beatWitnessInputs : List FrequencyBands :=
  [beatBands 0, beatBands 0, beatBands 0, beatBands 0, beatBands 0, beatBands 0,
   beatBands 0, beatBands 0, beatBands 0, beatBands 1, beatBands 0, beatBands 0,
   beatBands 0, beatBands 0, beatBands 0, beatBands 0, beatBands 1]

set_option maxRecDepth 10000 in
/-- Witness for C7: a concrete run in which calls 9 and 16 both report beats,
whose simulated times differ by 0.35 s > 0.3 s. -/
theorem C7_beat_refractory_witness :
    (9 < 16 ∧
      ((BeatDetector.runDetect (fun _ => (0 : ℚ)) (BeatDetector.new 20480)
        beatWitnessInputs)[9]?).map Prod.fst = some true ∧
      ((BeatDetector.runDetect (fun _ => (0 : ℚ)) (BeatDetector.new 20480)
        beatWitnessInputs)[16]?).map Prod.fst = some true) ∧
    (((16 : ℕ) : ℚ) + 1) * (1024 / 20480) - (((9 : ℕ) : ℚ) + 1) * (1024 / 20480) > 0.3 :=
  ⟨⟨by decide, by with_unfolding_all decide, by with_unfolding_all decide⟩,
   C7_beat_refractory 20480 (fun _ => 0) beatWitnessInputs 9 16 (by decide)
     (by with_unfolding_all decide) (by with_unfolding_all decide)⟩

/-! ## Codec round trip (claims C2, C10) -/

namespace ArvFormat

/-- `readExact` splits an exact-length chunk off the front. -/
theorem readExact_append (xs rest : List ℕ) :
    readExact xs.length (xs ++ rest) = some (xs, rest) := by
  unfold readExact
  rw [if_pos (by simp)]
  rw [List.take_left, List.drop_left]

/-- `readExact` with an explicit length value. -/
theorem readExact_exact (n : ℕ) (xs rest : List ℕ) (h : xs.length = n) :
    readExact n (xs ++ rest) = some (xs, rest) := by
  subst h
  exact readExact_append xs rest

/-- `pack_float` always fits in a `u16`. -/
theorem pack_float_lt (x : ℚ) : PackedFrame.pack_float x < 65536 := by
  unfold PackedFrame.pack_float
  have h1 : clampQ x 0 1 * 65535 ≤ 65535 := by
    have h := clampQ_le x 0 1
    nlinarith
  have h2 : ((⌊clampQ x 0 1 * 65535⌋ : ℤ) : ℚ) ≤ 65535 := le_trans (Int.floor_le _) h1
  have h3 : ⌊clampQ x 0 1 * 65535⌋ ≤ 65535 := by exact_mod_cast h2
  omega

/-- `u32ToLe` always produces four bytes. -/
theorem u32ToLe_length (v : ℕ) : (u32ToLe v).length = 4 := rfl

/-- Reading back a little-endian `u32` below `2^32`. -/
theorem leToU32_u32ToLe (v : ℕ) (h : v < 4294967296) :
    leToU32 ((u32ToLe v).getD 0 0) ((u32ToLe v).getD 1 0)
      ((u32ToLe v).getD 2 0) ((u32ToLe v).getD 3 0) = v := by
  simp only [u32ToLe, List.getD_cons_zero, List.getD_cons_succ, leToU32]
  omega

/-- The 16 bytes written per frame. -/
theorem bytes16_length (p : PackedFrameData) : p.bytes16.length = 16 := by
  simp [PackedFrameData.bytes16, u16ToLe]

/-- Reinterpreting the 16 written bytes recovers the eight `u16` fields; the
beat fields and `reserved` come from the out-of-bounds `junk` bytes. -/
theorem ofBytes_bytes16 (p : PackedFrameData) (junk : List ℕ)
    (h1 : p.bass < 65536) (h2 : p.mid < 65536) (h3 : p.treble < 65536)
    (h4 : p.sub_bass < 65536) (h5 : p.presence < 65536)
    (h6 : p.spectral_centroid < 65536) (h7 : p.pitch_confidence < 65536)
    (h8 : p.onset_strength < 65536) :
    PackedFrameData.ofBytes p.bytes16 junk =
      { p with beat_data := junk.getD 0 0
               beat_strength := junk.getD 1 0
               reserved := leToU16 (junk.getD 2 0) (junk.getD 3 0) } := by
  simp only [PackedFrameData.bytes16, u16ToLe, List.cons_append, List.nil_append,
    PackedFrameData.ofBytes, List.getD_cons_zero, List.getD_cons_succ, leToU16,
    PackedFrameData.mk.injEq]
  refine ⟨?_, ?_, ?_, ?_, ?_, ?_, ?_, ?_, ?_, ?_, ?_⟩ <;> first | omega | trivial

/-- The frame that `load_arv` reconstructs for a saved frame `f` at index `i`,
with out-of-bounds beat bytes `junk`. -/
def loadedFrame (junk : List ℕ) (frame_rate average_bpm : ℚ) (i : ℕ)
    (f : PrescanFrame) : PrescanFrame where
  timestamp := (i : ℚ) / frame_rate
  frequency_bands :=
    { bass := PackedFrame.unpack_float (PackedFrame.pack_float f.frequency_bands.bass)
      mid := PackedFrame.unpack_float (PackedFrame.pack_float f.frequency_bands.mid)
      treble := PackedFrame.unpack_float (PackedFrame.pack_float f.frequency_bands.treble)
      sub_bass := PackedFrame.unpack_float (PackedFrame.pack_float f.frequency_bands.sub_bass)
      presence := PackedFrame.unpack_float (PackedFrame.pack_float f.frequency_bands.presence) }
  beat_detected := decide (junk.getD 0 0 % 2 ≠ 0)
  beat_strength := PackedFrame.unpack_beat_strength (junk.getD 1 0)
  estimated_bpm := average_bpm
  spectral_centroid := PackedFrame.unpack_float (PackedFrame.pack_float f.spectral_centroid)
  spectral_rolloff := 0
  pitch_confidence := PackedFrame.unpack_float (PackedFrame.pack_float f.pitch_confidence)
  zero_crossing_rate := 0
  spectral_flux := 0
  onset_strength := PackedFrame.unpack_float (PackedFrame.pack_float f.onset_strength)
  dynamic_range := 0
  volume := 0

/-- The frame loop of `load_arv` on the exact byte stream written by
`save_arv`. -/
theorem loadFrames_spec (junkFn : ℕ → List ℕ) (fr bpm : ℚ) :
    ∀ (fs : List PrescanFrame) (i : ℕ),
      loadFrames junkFn fr bpm fs.length i
        ((fs.map (fun f => (PackedFrameData.from_prescan_frame f f.timestamp).bytes16)).flatten) =
      some ((List.enumFrom i fs).map
        (fun p => loadedFrame (junkFn p.1) fr bpm p.1 p.2)) := by
  intro fs
  induction fs with
  | nil => intro i; rfl
  | cons f rest ih =>
    intro i
    simp only [List.map_cons, List.flatten_cons, List.enumFrom_cons, List.length_cons]
    unfold loadFrames
    rw [readExact_exact 16 _ _ (bytes16_length _)]
    have hof := ofBytes_bytes16 (PackedFrameData.from_prescan_frame f f.timestamp)
      (junkFn i) (pack_float_lt _) (pack_float_lt _) (pack_float_lt _)
      (pack_float_lt _) (pack_float_lt _) (pack_float_lt _) (pack_float_lt _)
      (pack_float_lt _)
    dsimp only
    rw [hof, ih (i + 1)]
    rfl

/-- `load_arv` after `save_arv`: header sections reproduced exactly (given the
`serde_json` round trip), frames reconstructed as `loadedFrame`. -/
theorem load_save_roundtrip (jc : JsonCodec) (junkFn : ℕ → List ℕ) (d : PrescanData)
    (hfi : jc.decFileInfo (jc.encFileInfo d.file_info) = some d.file_info)
    (hst : jc.decStats (jc.encStats d.statistics) = some d.statistics)
    (hl1 : (jc.encFileInfo d.file_info).length < 4294967296)
    (hl2 : (jc.encStats d.statistics).length < 4294967296)
    (hfc : d.frames.length < 4294967296) :
    load_arv jc junkFn (save_arv jc d) =
      .ok { file_info := d.file_info
            frames := (List.enumFrom 0 d.frames).map
              (fun p => loadedFrame (junkFn p.1) d.file_info.frame_rate
                d.statistics.average_bpm p.1 p.2)
            statistics := d.statistics } := by
  unfold save_arv load_arv
  dsimp only
  simp only [List.append_assoc]
  rw [readExact_exact 4 magicBytes _ rfl]
  dsimp only
  rw [if_neg (by simp)]
  rw [readExact_exact 1 [formatVersion] _ rfl]
  dsimp only
  rw [if_neg (by simp)]
  rw [readExact_exact 4 (u32ToLe (jc.encFileInfo d.file_info).length) _ rfl]
  dsimp only
  rw [leToU32_u32ToLe _ hl1]
  rw [readExact_append (jc.encFileInfo d.file_info) _]
  dsimp only
  rw [hfi]
  dsimp only
  rw [readExact_exact 4 (u32ToLe (jc.encStats d.statistics).length) _ rfl]
  dsimp only
  rw [leToU32_u32ToLe _ hl2]
  rw [readExact_append (jc.encStats d.statistics) _]
  dsimp only
  rw [hst]
  dsimp only
  rw [readExact_exact 4 (u32ToLe d.frames.length) _ rfl]
  dsimp only
  rw [leToU32_u32ToLe _ hfc]
  rw [loadFrames_spec junkFn d.file_info.frame_rate d.statistics.average_bpm d.frames 0]

end ArvFormat

/-- C10: the 16-byte packed record carries no timestamp, so
`load_arv (save_arv d)` gives frame `i` the timestamp `i / frame_rate`
regardless of the timestamps stored in the saved frames; a saved per-frame
timestamp different from `i / frame_rate` is not recovered. -/
theorem C10_timestamps_not_persisted (jc : JsonCodec) (junkFn : ℕ → List ℕ)
    (d : PrescanData)
    (hfi : jc.decFileInfo (jc.encFileInfo d.file_info) = some d.file_info)
    (hst : jc.decStats (jc.encStats d.statistics) = some d.statistics)
    (hl1 : (jc.encFileInfo d.file_info).length < 4294967296)
    (hl2 : (jc.encStats d.statistics).length < 4294967296)
    (hfc : d.frames.length < 4294967296) :
    ∃ loaded : PrescanData,
      ArvFormat.load_arv jc junkFn (ArvFormat.save_arv jc d) = .ok loaded ∧
      loaded.frames.length = d.frames.length ∧
      (∀ (i : ℕ) (hi : i < loaded.frames.length),
        (loaded.frames.get ⟨i, hi⟩).timestamp = (i : ℚ) / d.file_info.frame_rate) ∧
      (∀ (i : ℕ) (hi : i < d.frames.length) (hi2 : i < loaded.frames.length),
        (d.frames.get ⟨i, hi⟩).timestamp ≠ (i : ℚ) / d.file_info.frame_rate →
        (loaded.frames.get ⟨i, hi2⟩).timestamp ≠ (d.frames.get ⟨i, hi⟩).timestamp) := by
  refine ⟨_, ArvFormat.load_save_roundtrip jc junkFn d hfi hst hl1 hl2 hfc, ?_, ?_, ?_⟩
  · rw [List.length_map, List.enumFrom_length]
  · intro i hi
    simp only [List.get_eq_getElem, List.getElem_map, List.getElem_enumFrom]
    simp [ArvFormat.loadedFrame]
  · intro i hi hi2 hne
    simp only [List.get_eq_getElem] at hne ⊢
    simp only [List.getElem_map, List.getElem_enumFrom]
    simp only [ArvFormat.loadedFrame, Nat.zero_add]
    exact fun h => hne h.symm

/-- A frame with a reported beat and beat strength `5/2`. -/
def beatFrame : PrescanFrame := { cexFrame with beat_detected := true, beat_strength := 5 / 2 }

/-- A one-frame `PrescanData` with a beat, used to exhibit the lost beat
fields. -/
def beatData : PrescanData where
  file_info := dummyFileInfo
  frames := [beatFrame]
  statistics := AnalysisStatistics.default

/-- C2: evaluation at the failing input.  The saved frame has
`beat_detected = true` and `beat_strength = 5/2`, but `save_arv` writes only
the first 16 of the 20-byte packed struct — the eight `u16` fields — so the
beat flag and strength are never written; `load_arv` reads them from past the
end of its 16-byte buffer (here modeled as zero bytes), yielding
`beat_detected = false` and `beat_strength = 0`.  The claim's promise that
beat fields round-trip therefore fails on the code. -/
theorem C2_beat_fields_not_persisted :
    (beatData.frames.get ⟨0, by decide⟩).beat_detected = true ∧
    (beatData.frames.get ⟨0, by decide⟩).beat_strength = 5 / 2 ∧
    ∃ loaded : PrescanData,
      ArvFormat.load_arv (trivialJsonCodec dummyFileInfo AnalysisStatistics.default)
          (fun _ => [0, 0, 0, 0])
          (ArvFormat.save_arv (trivialJsonCodec dummyFileInfo AnalysisStatistics.default)
            beatData) = .ok loaded ∧
      loaded.frames.length = 1 ∧
      ∀ f ∈ loaded.frames, f.beat_detected = false ∧ f.beat_strength = 0 := by
  refine ⟨rfl, rfl, _,
    ArvFormat.load_save_roundtrip _ _ _ rfl rfl (by decide) (by decide) (by decide),
    rfl, ?_⟩
  intro f hf
  simp only [beatData, List.enumFrom_cons, List.enumFrom_nil, List.map_cons, List.map_nil,
    List.mem_singleton] at hf
  subst hf
  constructor
  · rfl
  · show PackedFrame.unpack_beat_strength (([0, 0, 0, 0] : List ℕ).getD 1 0) = 0
    simp [PackedFrame.unpack_beat_strength]

/-- Frame whose stored timestamp (5) differs from `0 / frame_rate`. -/
def tsFrame : PrescanFrame := { cexFrame with timestamp := 5 }

/-- One-frame data for the C10 witness. -/
def tsData : PrescanData where
  file_info := dummyFileInfo
  frames := [tsFrame]
  statistics := AnalysisStatistics.default

/-- Witness for C10 at a concrete one-frame `PrescanData`. -/
theorem C10_timestamps_not_persisted_witness :
    ((trivialJsonCodec dummyFileInfo AnalysisStatistics.default).decFileInfo
        ((trivialJsonCodec dummyFileInfo AnalysisStatistics.default).encFileInfo
          tsData.file_info) = some tsData.file_info ∧
      ((trivialJsonCodec dummyFileInfo AnalysisStatistics.default).encFileInfo
        tsData.file_info).length < 4294967296 ∧
      tsData.frames.length < 4294967296) ∧
    (∃ loaded : PrescanData,
      ArvFormat.load_arv (trivialJsonCodec dummyFileInfo AnalysisStatistics.default)
        (fun _ => [0, 0, 0, 0])
        (ArvFormat.save_arv (trivialJsonCodec dummyFileInfo AnalysisStatistics.default)
          tsData) = .ok loaded ∧
      loaded.frames.length = tsData.frames.length ∧
      (∀ (i : ℕ) (hi : i < loaded.frames.length),
        (loaded.frames.get ⟨i, hi⟩).timestamp = (i : ℚ) / tsData.file_info.frame_rate) ∧
      (∀ (i : ℕ) (hi : i < tsData.frames.length) (hi2 : i < loaded.frames.length),
        (tsData.frames.get ⟨i, hi⟩).timestamp ≠ (i : ℚ) / tsData.file_info.frame_rate →
        (loaded.frames.get ⟨i, hi2⟩).timestamp ≠ (tsData.frames.get ⟨i, hi⟩).timestamp)) :=
  ⟨⟨rfl, by decide, by decide⟩,
   C10_timestamps_not_persisted (trivialJsonCodec dummyFileInfo AnalysisStatistics.default)
     (fun _ => [0, 0, 0, 0]) tsData rfl rfl (by decide) (by decide) (by decide)⟩

/-! ## Claim C9: silent two-second prescan -/

/-- `getD` on a replicated list with matching default. -/
theorem getD_replicate (n : ℕ) (c : ℚ) (i : ℕ) :
    (List.replicate n c).getD i c = c := by
  rw [List.getD_eq_getElem?_getD]
  rcases h : (List.replicate n c)[i]? with _ | v
  · rfl
  · have hm := List.getElem?_mem h
    rw [List.eq_of_mem_replicate hm]
    rfl

/-- Pushing a zero onto an all-zero history keeps it all zero. -/
theorem pushCap_zeros (h : List ℚ) (v : ℚ) (cap : ℕ)
    (hh : ∀ x ∈ h, x = 0) (hv : v = 0) : ∀ x ∈ pushCap h v cap, x = 0 := by
  intro x hx
  unfold pushCap at hx
  dsimp only at hx
  have hmem : x ∈ h ++ [v] := by
    by_cases hc : (h ++ [v]).length > cap
    · rw [if_pos hc] at hx
      exact List.mem_of_mem_tail hx
    · rw [if_neg hc] at hx
      exact hx
  rcases List.mem_append.mp hmem with hin | hin
  · exact hh x hin
  · rw [List.mem_singleton.mp hin]
    exact hv

/-- The analyzer-state invariant along a silent stream: 512-sample windows,
all retained history is zero. -/
def SilentInv (a : AudioAnalyzer) : Prop :=
  a.fft_size = 512 ∧
  (∀ x ∈ a.previous_spectrum, x = 0) ∧
  (∀ x ∈ a.volume_history, x = 0) ∧
  (∀ x ∈ a.beat_detector.bass_history, x = 0) ∧
  (∀ x ∈ a.beat_detector.kick_history, x = 0) ∧
  a.beat_detector.last_beat_time = 0

/-- Windowing a silent chunk gives the zero buffer, for any window vector. -/
theorem apply_window_silent (a : AudioAnalyzer) (ha : a.fft_size = 512) :
    a.apply_window (List.replicate 512 0) = List.replicate 512 0 := by
  unfold AudioAnalyzer.apply_window
  rw [List.length_replicate, ha, min_self]
  refine List.eq_replicate.mpr ⟨by rw [List.length_map, List.length_range], ?_⟩
  intro x hx
  obtain ⟨i, _, rfl⟩ := List.mem_map.mp hx
  rw [getD_replicate]
  exact zero_mul _

/-- The spectrum of a silent window is zero, given that the abstracted FFT
maps the zero buffer to the zero buffer (linearity of the DFT) and
`sqrt 0 = 0`. -/
theorem compute_fft_silent (fftProcess : List (ℚ × ℚ) → List (ℚ × ℚ))
    (sqrtFn : ℚ → ℚ) (a : AudioAnalyzer)
    (hfft : fftProcess (List.replicate 512 ((0 : ℚ), (0 : ℚ))) = List.replicate 512 (0, 0))
    (hs : sqrtFn 0 = 0) (ha : a.fft_size = 512) :
    AudioAnalyzer.compute_fft fftProcess sqrtFn a (List.replicate 512 0) =
      List.replicate 256 0 := by
  unfold AudioAnalyzer.compute_fft
  dsimp only
  rw [List.map_replicate]
  rw [if_neg (by rw [List.length_replicate, ha]; omega)]
  rw [hfft, ha]
  have h2 : (512 : ℕ) / 2 = 256 := by norm_num
  rw [h2, List.take_replicate, min_eq_left (by norm_num), List.map_replicate]
  congr 1
  norm_num [hs]

/-- `average_range` over an all-zero list is zero. -/
theorem average_range_zeros (data : List ℚ) (hz : ∀ x ∈ data, x = 0) (s e : ℕ) :
    AudioAnalyzer.average_range data s e = 0 := by
  unfold AudioAnalyzer.average_range
  split
  · rfl
  · dsimp only
    rw [List.sum_eq_zero (fun x hx => hz x
      (List.mem_of_mem_drop (List.mem_of_mem_take hx)))]
    exact zero_div _

/-- Band extraction from the zero spectrum. -/
theorem extract_frequency_bands_silent (a : AudioAnalyzer) :
    AudioAnalyzer.extract_frequency_bands a (List.replicate 256 0) =
      ⟨0, 0, 0, 0, 0⟩ := by
  unfold AudioAnalyzer.extract_frequency_bands
  dsimp only
  have hz : ∀ x ∈ List.replicate 256 (0 : ℚ), x = 0 :=
    fun x hx => List.eq_of_mem_replicate hx
  rw [average_range_zeros _ hz, average_range_zeros _ hz, average_range_zeros _ hz,
    average_range_zeros _ hz, average_range_zeros _ hz]

/-- A silent window produces no beat and keeps the detector history silent
(regardless of thresholds: the absolute energy floors fail). -/
theorem detect_beat_silent (sqrtFn : ℚ → ℚ) (d : BeatDetector)
    (hb : ∀ x ∈ d.bass_history, x = 0) (hk : ∀ x ∈ d.kick_history, x = 0)
    (hl : d.last_beat_time = 0) :
    (BeatDetector.detect_beat sqrtFn d ⟨0, 0, 0, 0, 0⟩).2.1 = false ∧
    (∀ x ∈ (BeatDetector.detect_beat sqrtFn d ⟨0, 0, 0, 0, 0⟩).1.bass_history, x = 0) ∧
    (∀ x ∈ (BeatDetector.detect_beat sqrtFn d ⟨0, 0, 0, 0, 0⟩).1.kick_history, x = 0) ∧
    (BeatDetector.detect_beat sqrtFn d ⟨0, 0, 0, 0, 0⟩).1.last_beat_time = 0 := by
  have hb0 : ∀ x ∈ pushCap d.bass_history
      ((⟨0, 0, 0, 0, 0⟩ : FrequencyBands).bass + (⟨0, 0, 0, 0, 0⟩ : FrequencyBands).sub_bass)
      d.history_size, x = 0 :=
    pushCap_zeros _ _ _ hb (by norm_num)
  have hk0 : ∀ x ∈ pushCap d.kick_history
      ((⟨0, 0, 0, 0, 0⟩ : FrequencyBands).bass * 1.5 +
        (⟨0, 0, 0, 0, 0⟩ : FrequencyBands).sub_bass * 0.8)
      d.history_size, x = 0 :=
    pushCap_zeros _ _ _ hk (by norm_num)
  unfold BeatDetector.detect_beat
  dsimp only
  split
  · exact ⟨by trivial, hb0, hk0, hl⟩
  · have hC : decide ((⟨0, 0, 0, 0, 0⟩ : FrequencyBands).bass +
        (⟨0, 0, 0, 0, 0⟩ : FrequencyBands).sub_bass > (0.01 : ℚ)) = false :=
      decide_eq_false (by norm_num)
    have hE : decide ((⟨0, 0, 0, 0, 0⟩ : FrequencyBands).bass * 1.5 +
        (⟨0, 0, 0, 0, 0⟩ : FrequencyBands).sub_bass * 0.8 > (0.015 : ℚ)) = false :=
      decide_eq_false (by norm_num)
    rw [hC, hE]
    simp only [Bool.and_false, Bool.or_self, Bool.false_or, Bool.and_self]
    refine ⟨by trivial, hb0, hk0, ?_⟩
    dsimp only
    rw [if_neg (by simp)]
    exact hl

/-- Spectral flux of the zero spectrum against an all-zero previous spectrum. -/
theorem calculate_spectral_flux_silent (a : AudioAnalyzer)
    (hp : ∀ x ∈ a.previous_spectrum, x = 0) :
    AudioAnalyzer.calculate_spectral_flux a (List.replicate 256 0) = 0 := by
  unfold AudioAnalyzer.calculate_spectral_flux
  split
  · rfl
  · rw [List.sum_eq_zero]
    · exact zero_div _
    · intro x hx
      obtain ⟨⟨u, v⟩, hmem, rfl⟩ := List.mem_map.mp hx
      obtain ⟨hu, hv⟩ := List.of_mem_zip hmem
      rw [List.eq_of_mem_replicate hu, hp v hv]
      norm_num

/-- Onset strength of the zero spectrum. -/
theorem calculate_onset_strength_silent (a : AudioAnalyzer)
    (hp : ∀ x ∈ a.previous_spectrum, x = 0) :
    AudioAnalyzer.calculate_onset_strength a (List.replicate 256 0) = 0 := by
  unfold AudioAnalyzer.calculate_onset_strength
  dsimp only
  rw [List.sum_eq_zero (fun x hx => List.eq_of_mem_replicate
    (List.mem_of_mem_take (List.mem_of_mem_drop hx)))]
  rw [show (if a.previous_spectrum.length ≥ 10 then
      ((a.previous_spectrum.take (min 10 a.previous_spectrum.length)).drop 1).sum
      else 0) = 0 from by
    split
    · exact List.sum_eq_zero (fun x hx => hp x
        (List.mem_of_mem_take (List.mem_of_mem_drop hx)))
    · rfl]
  norm_num

/-- The RMS volume of a silent 512-sample chunk. -/
theorem volume_silent (sqrtFn : ℚ → ℚ) (hs : sqrtFn 0 = 0) :
    sqrtFn (((List.replicate 512 (0 : ℚ)).map (fun x => x * x)).sum /
      ((List.replicate 512 (0 : ℚ)).length : ℚ)) = 0 := by
  simp only [List.map_replicate, List.length_replicate]
  norm_num [List.sum_replicate, hs]

/-- `clamp (0 / c) 0 1 = 0`. -/
theorem clampQ_zero_div (c : ℚ) : clampQ (0 / c) 0 1 = 0 := by
  rw [zero_div]
  unfold clampQ
  norm_num

set_option maxHeartbeats 1000000 in
/-- One `analyze` call on a silent 512-sample chunk: the invariant is
preserved, no beat is reported, and all statistics-relevant output fields are
zero. -/
theorem analyze_silent (fftProcess : List (ℚ × ℚ) → List (ℚ × ℚ)) (sqrtFn : ℚ → ℚ)
    (hfft : fftProcess (List.replicate 512 ((0 : ℚ), (0 : ℚ))) = List.replicate 512 (0, 0))
    (hs : sqrtFn 0 = 0) (a : AudioAnalyzer) (ha : SilentInv a) :
    SilentInv (AudioAnalyzer.analyze fftProcess sqrtFn a (List.replicate 512 0)).1 ∧
    (AudioAnalyzer.analyze fftProcess sqrtFn a (List.replicate 512 0)).2.beat_detected = false ∧
    (AudioAnalyzer.analyze fftProcess sqrtFn a (List.replicate 512 0)).2.volume = 0 ∧
    (AudioAnalyzer.analyze fftProcess sqrtFn a (List.replicate 512 0)).2.frequency_bands.bass = 0 ∧
    (AudioAnalyzer.analyze fftProcess sqrtFn a (List.replicate 512 0)).2.frequency_bands.mid = 0 ∧
    (AudioAnalyzer.analyze fftProcess sqrtFn a (List.replicate 512 0)).2.frequency_bands.treble = 0 ∧
    (AudioAnalyzer.analyze fftProcess sqrtFn a (List.replicate 512 0)).2.frequency_bands.presence = 0 ∧
    (AudioAnalyzer.analyze fftProcess sqrtFn a (List.replicate 512 0)).2.spectral_flux = 0 ∧
    (AudioAnalyzer.analyze fftProcess sqrtFn a (List.replicate 512 0)).2.onset_strength = 0 := by
  obtain ⟨hfs, hprev, hvol, hbass, hkick, hlast⟩ := ha
  have hwin := apply_window_silent a hfs
  have hspec := compute_fft_silent fftProcess sqrtFn a hfft hs hfs
  have hbands := extract_frequency_bands_silent a
  have hbeat := detect_beat_silent sqrtFn a.beat_detector hbass hkick hlast
  have hflux := calculate_spectral_flux_silent a hprev
  have honset := calculate_onset_strength_silent a hprev
  have hvol0 := volume_silent sqrtFn hs
  unfold AudioAnalyzer.analyze
  dsimp only
  rw [hwin, hspec, hbands, hvol0, hflux, honset]
  refine ⟨⟨hfs, ?_, ?_, hbeat.2.1, hbeat.2.2.1, hbeat.2.2.2⟩,
    hbeat.1, rfl, ?_, ?_, ?_, ?_, ?_, ?_⟩
  · exact fun x hx => List.eq_of_mem_replicate hx
  · exact pushCap_zeros _ _ _ hvol rfl
  · exact clampQ_zero_div _
  · exact clampQ_zero_div _
  · exact clampQ_zero_div _
  · exact clampQ_zero_div _
  · exact clampQ_zero_div _
  · exact clampQ_zero_div _

/-- Statistics are unchanged by a silent frame (default peaks stay zero, no
beat is counted, no BPM sample is pushed). -/
theorem update_statistics_silent (frame : AudioFrame) (bc : ℕ) (bpms : List ℚ)
    (hbd : frame.beat_detected = false)
    (hb : frame.frequency_bands.bass = 0) (hm : frame.frequency_bands.mid = 0)
    (ht : frame.frequency_bands.treble = 0) (hpres : frame.frequency_bands.presence = 0)
    (hv : frame.volume = 0) (hf : frame.spectral_flux = 0) (ho : frame.onset_strength = 0) :
    PrescanProcessor.update_statistics AnalysisStatistics.default frame bc bpms =
      (AnalysisStatistics.default, bc, bpms) := by
  unfold PrescanProcessor.update_statistics
  rw [hb, hm, ht, hpres, hv, hf, ho, hbd]
  dsimp only
  rw [if_neg (by simp)]
  refine congrArg (fun s => (s, bc, bpms)) ?_
  with_unfolding_all decide

set_option maxHeartbeats 1000000 in
/-- The prescan chunk loop over a silent buffer: it produces one frame per
full 512-sample chunk, each with zero volume, and leaves the statistics,
beat counter and BPM samples untouched. -/
theorem prescanLoop_silent (fftProcess : List (ℚ × ℚ) → List (ℚ × ℚ)) (sqrtFn : ℚ → ℚ)
    (hfft : fftProcess (List.replicate 512 ((0 : ℚ), (0 : ℚ))) = List.replicate 512 (0, 0))
    (hs : sqrtFn 0 = 0) :
    ∀ (n pos : ℕ) (a : AudioAnalyzer) (frames : List PrescanFrame) (bc : ℕ)
      (bpms : List ℚ), 88200 - pos ≤ n → SilentInv a →
      (PrescanProcessor.prescanLoop fftProcess sqrtFn 512 44100 (List.replicate 88200 0)
        a pos frames AnalysisStatistics.default bc bpms).1.length =
          frames.length + (88200 - pos) / 512 ∧
      (PrescanProcessor.prescanLoop fftProcess sqrtFn 512 44100 (List.replicate 88200 0)
        a pos frames AnalysisStatistics.default bc bpms).2.1 = AnalysisStatistics.default ∧
      (PrescanProcessor.prescanLoop fftProcess sqrtFn 512 44100 (List.replicate 88200 0)
        a pos frames AnalysisStatistics.default bc bpms).2.2.1 = bc ∧
      (PrescanProcessor.prescanLoop fftProcess sqrtFn 512 44100 (List.replicate 88200 0)
        a pos frames AnalysisStatistics.default bc bpms).2.2.2 = bpms ∧
      (∀ f ∈ (PrescanProcessor.prescanLoop fftProcess sqrtFn 512 44100
          (List.replicate 88200 0) a pos frames AnalysisStatistics.default bc bpms).1,
        f ∈ frames ∨ f.volume = 0) := by
  intro n
  induction n with
  | zero =>
    intro pos a frames bc bpms hn _
    have hpos : ¬ (pos + 512 ≤ (List.replicate 88200 (0 : ℚ)).length ∧ 0 < 512) := by
      rw [List.length_replicate]
      omega
    unfold PrescanProcessor.prescanLoop
    rw [dif_neg hpos]
    refine ⟨?_, rfl, rfl, rfl, fun f hf => Or.inl hf⟩
    have hz : (88200 - pos) / 512 = 0 := by omega
    rw [hz]
    simp
  | succ n ihn =>
    intro pos a frames bc bpms hn hinv
    by_cases hg : pos + 512 ≤ 88200
    · have hcond : pos + 512 ≤ (List.replicate 88200 (0 : ℚ)).length ∧ 0 < 512 :=
        ⟨by rw [List.length_replicate]; omega, by norm_num⟩
      unfold PrescanProcessor.prescanLoop
      rw [dif_pos hcond]
      dsimp only
      have hchunk : ((List.replicate 88200 (0 : ℚ)).drop pos).take 512 =
          List.replicate 512 0 := by
        rw [List.drop_replicate, List.take_replicate, min_eq_left (by omega)]
      rw [hchunk]
      have hana := analyze_silent fftProcess sqrtFn hfft hs a hinv
      have hupd := update_statistics_silent
        (AudioAnalyzer.analyze fftProcess sqrtFn a (List.replicate 512 0)).2 bc bpms
        hana.2.1 hana.2.2.2.1 hana.2.2.2.2.1 hana.2.2.2.2.2.1 hana.2.2.2.2.2.2.1
        hana.2.2.1 hana.2.2.2.2.2.2.2.1 hana.2.2.2.2.2.2.2.2
      rw [hupd]
      dsimp only
      have hrec := ihn (pos + 512)
        (AudioAnalyzer.analyze fftProcess sqrtFn a (List.replicate 512 0)).1
        (frames ++ [{ PrescanFrame.fromAudioFrame
          (AudioAnalyzer.analyze fftProcess sqrtFn a (List.replicate 512 0)).2 with
          timestamp := ((pos : ℕ) : ℚ) / 44100 }]) bc bpms (by omega) hana.1
      refine ⟨?_, hrec.2.1, hrec.2.2.1, hrec.2.2.2.1, ?_⟩
      · rw [hrec.1, List.length_append]
        simp only [List.length_cons, List.length_nil]
        omega
      · intro f hf
        rcases hrec.2.2.2.2 f hf with hin | hzero
        · rcases List.mem_append.mp hin with h1 | h2
          · exact Or.inl h1
          · right
            rw [List.mem_singleton.mp h2]
            exact hana.2.2.1
        · exact Or.inr hzero
    · have hpos : ¬ (pos + 512 ≤ (List.replicate 88200 (0 : ℚ)).length ∧ 0 < 512) := by
        rw [List.length_replicate]
        omega
      unfold PrescanProcessor.prescanLoop
      rw [dif_neg hpos]
      refine ⟨?_, rfl, rfl, rfl, fun f hf => Or.inl hf⟩
      have hz : (88200 - pos) / 512 = 0 := by omega
      rw [hz]
      simp

/-- Content classification over frames of zero volume: energy profile "Low",
beat/BPM statistics untouched. -/
theorem classify_content_silent (stats : AnalysisStatistics) (frames : List PrescanFrame)
    (hv : ∀ f ∈ frames, f.volume = 0) :
    (PrescanProcessor.classify_content stats frames).energy_profile = "Low" ∧
    (PrescanProcessor.classify_content stats frames).total_beats = stats.total_beats ∧
    (PrescanProcessor.classify_content stats frames).average_bpm = stats.average_bpm := by
  unfold PrescanProcessor.classify_content
  dsimp only
  have h1 : (frames.map (fun f => f.volume)).sum = 0 :=
    List.sum_eq_zero (fun x hx => by
      obtain ⟨f, hf, rfl⟩ := List.mem_map.mp hx
      exact hv f hf)
  rw [h1, zero_div]
  have h2 : (frames.map (fun f => (f.volume - 0) ^ 2)).sum = 0 :=
    List.sum_eq_zero (fun x hx => by
      obtain ⟨f, hf, rfl⟩ := List.mem_map.mp hx
      rw [hv f hf]
      norm_num)
  rw [h2, zero_div]
  rw [if_neg (by norm_num), if_neg (by norm_num), if_neg (by norm_num)]
  exact ⟨rfl, rfl, rfl⟩

/-- C9: prescanning a 2-second 44100 Hz silent stream with chunk size 512
yields floor(2*44100/512) = 172 frames, zero total beats, the default
average BPM of 120, and energy profile "Low"; this holds for every window
vector and every abstracted FFT/sqrt that map zero input to zero output. -/
theorem C9_silent_prescan (fftProcess : List (ℚ × ℚ) → List (ℚ × ℚ)) (sqrtFn : ℚ → ℚ)
    (window : List ℚ) (path : String)
    (hfft : fftProcess (List.replicate 512 ((0 : ℚ), (0 : ℚ))) = List.replicate 512 (0, 0))
    (hs : sqrtFn 0 = 0) :
    (PrescanProcessor.prescanBuffer fftProcess sqrtFn window path 44100 512
      (List.replicate 88200 0)).frames.length = 172 ∧
    (PrescanProcessor.prescanBuffer fftProcess sqrtFn window path 44100 512
      (List.replicate 88200 0)).statistics.total_beats = 0 ∧
    (PrescanProcessor.prescanBuffer fftProcess sqrtFn window path 44100 512
      (List.replicate 88200 0)).statistics.average_bpm = 120 ∧
    (PrescanProcessor.prescanBuffer fftProcess sqrtFn window path 44100 512
      (List.replicate 88200 0)).statistics.energy_profile = "Low" := by
  have hinv : SilentInv (AudioAnalyzer.new window 44100 512) := by
    refine ⟨rfl, ?_, ?_, ?_, ?_, rfl⟩
    · intro x hx
      exact List.eq_of_mem_replicate hx
    · intro x hx
      have he : (AudioAnalyzer.new window 44100 512).volume_history = [] := rfl
      rw [he] at hx
      exact absurd hx (List.not_mem_nil x)
    · intro x hx
      have he : (AudioAnalyzer.new window 44100 512).beat_detector.bass_history = [] := rfl
      rw [he] at hx
      exact absurd hx (List.not_mem_nil x)
    · intro x hx
      have he : (AudioAnalyzer.new window 44100 512).beat_detector.kick_history = [] := rfl
      rw [he] at hx
      exact absurd hx (List.not_mem_nil x)
  have hloop := prescanLoop_silent fftProcess sqrtFn hfft hs 88200 0
    (AudioAnalyzer.new window 44100 512) [] 0 [] (by omega) hinv
  have hv : ∀ f ∈ (PrescanProcessor.prescanLoop fftProcess sqrtFn 512 44100
      (List.replicate 88200 0) (AudioAnalyzer.new window 44100 512) 0 []
      AnalysisStatistics.default 0 []).1, f.volume = 0 := by
    intro f hf
    rcases hloop.2.2.2.2 f hf with hin | hzero
    · exact absurd hin (List.not_mem_nil f)
    · exact hzero
  have hframes : ∀ (buf : List ℚ),
      (PrescanProcessor.prescanBuffer fftProcess sqrtFn window path 44100 512 buf).frames =
      (PrescanProcessor.prescanLoop fftProcess sqrtFn 512 44100 buf
        (AudioAnalyzer.new window 44100 512) 0 [] AnalysisStatistics.default 0 []).1 :=
    fun _ => rfl
  have hstats : ∀ (buf : List ℚ),
      (PrescanProcessor.prescanBuffer fftProcess sqrtFn window path 44100 512 buf).statistics =
      PrescanProcessor.classify_content
        (if ((PrescanProcessor.prescanLoop fftProcess sqrtFn 512 44100 buf
            (AudioAnalyzer.new window 44100 512) 0 [] AnalysisStatistics.default 0 []).2.2.2).isEmpty
         then { (PrescanProcessor.prescanLoop fftProcess sqrtFn 512 44100 buf
            (AudioAnalyzer.new window 44100 512) 0 [] AnalysisStatistics.default 0 []).2.1 with
            total_beats := (PrescanProcessor.prescanLoop fftProcess sqrtFn 512 44100 buf
              (AudioAnalyzer.new window 44100 512) 0 [] AnalysisStatistics.default 0 []).2.2.1 }
         else { { (PrescanProcessor.prescanLoop fftProcess sqrtFn 512 44100 buf
            (AudioAnalyzer.new window 44100 512) 0 [] AnalysisStatistics.default 0 []).2.1 with
            total_beats := (PrescanProcessor.prescanLoop fftProcess sqrtFn 512 44100 buf
              (AudioAnalyzer.new window 44100 512) 0 [] AnalysisStatistics.default 0 []).2.2.1 } with
            average_bpm := ((PrescanProcessor.prescanLoop fftProcess sqrtFn 512 44100 buf
              (AudioAnalyzer.new window 44100 512) 0 [] AnalysisStatistics.default 0 []).2.2.2).sum /
              (((PrescanProcessor.prescanLoop fftProcess sqrtFn 512 44100 buf
              (AudioAnalyzer.new window 44100 512) 0 [] AnalysisStatistics.default 0 []).2.2.2).length : ℚ)
            bpm_range := (PrescanProcessor.listMinQ
              ((PrescanProcessor.prescanLoop fftProcess sqrtFn 512 44100 buf
                (AudioAnalyzer.new window 44100 512) 0 [] AnalysisStatistics.default 0 []).2.2.2),
              PrescanProcessor.listMaxQ
              ((PrescanProcessor.prescanLoop fftProcess sqrtFn 512 44100 buf
                (AudioAnalyzer.new window 44100 512) 0 [] AnalysisStatistics.default 0 []).2.2.2)) })
        (PrescanProcessor.prescanLoop fftProcess sqrtFn 512 44100 buf
          (AudioAnalyzer.new window 44100 512) 0 [] AnalysisStatistics.default 0 []).1 :=
    fun _ => rfl
  rw [hframes (List.replicate 88200 0), hstats (List.replicate 88200 0)]
  rw [hloop.2.1, hloop.2.2.1, hloop.2.2.2.1]
  rw [if_pos (show ([] : List ℚ).isEmpty = true from rfl)]
  have hcls := classify_content_silent
    { AnalysisStatistics.default with total_beats := 0 }
    (PrescanProcessor.prescanLoop fftProcess sqrtFn 512 44100
      (List.replicate 88200 0) (AudioAnalyzer.new window 44100 512) 0 []
      AnalysisStatistics.default 0 []).1 hv
  refine ⟨?_, ?_, ?_, ?_⟩
  · rw [hloop.1]
    norm_num
  · rw [hcls.2.1]
  · rw [hcls.2.2]
    norm_num [AnalysisStatistics.default]
  · exact hcls.1

/-- Witness for C9 with a concrete zero FFT, zero sqrt and zero window. -/
theorem C9_silent_prescan_witness :
    ((fun _ : List (ℚ × ℚ) => List.replicate 512 ((0 : ℚ), (0 : ℚ)))
        (List.replicate 512 ((0 : ℚ), (0 : ℚ))) = List.replicate 512 (0, 0) ∧
      (fun _ : ℚ => (0 : ℚ)) 0 = 0) ∧
    ((PrescanProcessor.prescanBuffer (fun _ => List.replicate 512 ((0 : ℚ), (0 : ℚ)))
        (fun _ => 0) (List.replicate 512 0) "silent" 44100 512
        (List.replicate 88200 0)).frames.length = 172 ∧
      (PrescanProcessor.prescanBuffer (fun _ => List.replicate 512 ((0 : ℚ), (0 : ℚ)))
        (fun _ => 0) (List.replicate 512 0) "silent" 44100 512
        (List.replicate 88200 0)).statistics.total_beats = 0 ∧
      (PrescanProcessor.prescanBuffer (fun _ => List.replicate 512 ((0 : ℚ), (0 : ℚ)))
        (fun _ => 0) (List.replicate 512 0) "silent" 44100 512
        (List.replicate 88200 0)).statistics.average_bpm = 120 ∧
      (PrescanProcessor.prescanBuffer (fun _ => List.replicate 512 ((0 : ℚ), (0 : ℚ)))
        (fun _ => 0) (List.replicate 512 0) "silent" 44100 512
        (List.replicate 88200 0)).statistics.energy_profile = "Low") :=
  ⟨⟨rfl, rfl⟩,
   C9_silent_prescan (fun _ => List.replicate 512 ((0 : ℚ), (0 : ℚ))) (fun _ => 0)
     (List.replicate 512 0) "silent" rfl rfl⟩

end Arrvee
